import Mathlib

/-!
Verification development for the LinkedIn Lead Scorer browser extension
(`src/scripts/content.js`, `src/scripts/background.js`, popup script).

The JavaScript source is shallowly embedded: pure helpers become Lean
functions on `String`/`List Char`/`Int`; the stateful card watcher of
`content.js` becomes an explicit transition system over `SysState`;
the fallible provider adapter of `background.js` becomes `Except`-valued
pipelines.  Platform builtins used by the source (`String.prototype.trim`,
`replace` with the regexes `\s+` and `\n+`, `btoa`, `JSON.parse`,
JS property access) are modelled executably below.  JS numbers are
modelled as `Int` (no claim depends on fractional values) and strings are
treated at the code-point level (all concrete inputs are ASCII).
-/

namespace LeadScorer

/-! ## JS string primitives (content.js lines 144, 171, 241, 251-254) -/

/-- ASCII fragment of the JS whitespace class `\s` (and of the set trimmed
by `String.prototype.trim`): space, tab, newline, carriage return,
vertical tab, form feed.  Non-ASCII whitespace is not modelled. -/
def jsWs (c : Char) : Bool :=
  c = ' ' || c = '\t' || c = '\n' || c = '\r' || c = '\x0b' || c = '\x0c'

/-- Remove the maximal trailing run of whitespace (the tail half of
`String.prototype.trim`). -/
def dropTrailingWs : List Char → List Char
  | [] => []
  | c :: cs =>
    let r := dropTrailingWs cs
    if r.isEmpty && jsWs c then [] else c :: r

/-- `String.prototype.trim` on a character list: drop the leading
whitespace run, then the trailing one. -/
def jsTrimL (l : List Char) : List Char :=
  dropTrailingWs (l.dropWhile jsWs)

/-- `String.prototype.trim`. -/
def jsTrim (s : String) : String := ⟨jsTrimL s.data⟩

/-- `replace(/\s+/g, ' ')`: each maximal whitespace run becomes one space.
The flag records whether we are inside a run whose space was already
emitted. -/
def collapseWsAux : Bool → List Char → List Char
  | _, [] => []
  | inRun, c :: cs =>
    if jsWs c then
      if inRun then collapseWsAux true cs else ' ' :: collapseWsAux true cs
    else c :: collapseWsAux false cs

/-- `replace(/\s+/g, ' ')` starting outside a whitespace run. -/
def collapseWsL (l : List Char) : List Char := collapseWsAux false l

/-- `replace(/\n+/g, '\n')`: each maximal newline run becomes one newline. -/
def collapseNlAux : Bool → List Char → List Char
  | _, [] => []
  | inRun, c :: cs =>
    if c = '\n' then
      if inRun then collapseNlAux true cs else '\n' :: collapseNlAux true cs
    else c :: collapseNlAux false cs

/-- Naive substring search: does `needle` occur contiguously in `hay`?
Models `String.prototype.includes`. -/
def hasSubList (hay needle : List Char) : Bool :=
  match hay with
  | [] => needle.isEmpty
  | _ :: tl => needle.isPrefixOf hay || hasSubList tl needle

/-- `String.prototype.includes`. -/
def strIncludes (hay needle : String) : Bool :=
  hasSubList hay.data needle.data

/-- `String.prototype.toLowerCase` (ASCII). -/
def toLowerStr (s : String) : String := ⟨s.data.map Char.toLower⟩

/-! ## `btoa` and card identity (content.js lines 170-174) -/

/-- A base64 alphabet character for a 6-bit value. -/
def b64Char (n : Nat) : Char :=
  if n < 26 then Char.ofNat (65 + n)
  else if n < 52 then Char.ofNat (97 + (n - 26))
  else if n < 62 then Char.ofNat (48 + (n - 52))
  else if n = 62 then '+' else '/'

/-- Standard base64 encoding of a byte list, with `=` padding. -/
def b64Encode : List Nat → List Char
  | [] => []
  | [a] => [b64Char (a / 4), b64Char (a % 4 * 16), '=', '=']
  | [a, b] => [b64Char (a / 4), b64Char (a % 4 * 16 + b / 16), b64Char (b % 16 * 4), '=']
  | a :: b :: c :: rest =>
    b64Char (a / 4) :: b64Char (a % 4 * 16 + b / 16)
      :: b64Char (b % 16 * 4 + c / 64) :: b64Char (c % 64) :: b64Encode rest

/-- `btoa`: base64 of the Latin-1 bytes of the string.  The model reduces
code points mod 256; real `btoa` instead raises on code points above 255,
a case no claim exercises (all concrete card texts are ASCII). -/
def btoa (s : String) : String :=
  ⟨b64Encode (s.data.map (fun c => c.toNat % 256))⟩

/-- The character class `[a-zA-Z0-9]` of the sanitising regex. -/
def isAlphanumAscii (c : Char) : Bool :=
  ('a' ≤ c && c ≤ 'z') || ('A' ≤ c && c ≤ 'Z') || ('0' ≤ c && c ≤ '9')

/-- `getCardId` (content.js lines 170-174): trim the card text, take the
first 100 characters, base64-encode, strip non-alphanumerics, keep the
first 20 characters. -/
def getCardId (text : String) : String :=
  let t := jsTrim text
  let hash : String := ⟨t.data.take 100⟩
  ⟨((btoa hash).data.filter isAlphanumAscii).take 20⟩

/-! ## Score tiers (content.js lines 310-316) -/

/-- `getScoreClass` (content.js lines 310-316). -/
def getScoreClass (score : Int) : String :=
  if score ≥ 20 then "score-excellent"
  else if score ≥ 10 then "score-good"
  else if score ≥ 5 then "score-fair"
  else if score ≥ 0 then "score-poor"
  else "score-negative"

/-! ## Cards and profile extraction (content.js lines 142-157, 239-260) -/

/-- The observable attributes of a DOM invitation-card element that the
watcher reads.  `matchesSelector` abstracts matching one of the
`SELECTORS.invitationCard` selectors; `img` is the `src` and `alt` of the
first element matching `SELECTORS.profileImage`, if any.  Badge children
are tracked separately in `SysState` because the watcher itself inserts
and removes them. -/
structure CardElem where
  text : String
  matchesSelector : Bool
  hasAcceptButton : Bool
  hasCardContent : Bool
  img : Option (String × String)
deriving DecidableEq

/-- `ProfileSnapshot` as built by `extractProfileData`. -/
structure ProfileData where
  text : String
  hasProfilePic : Bool
deriving DecidableEq

/-- The profile-picture heuristic of `extractProfileData`
(content.js lines 244-248). -/
def hasProfilePicOf (card : CardElem) : Bool :=
  match card.img with
  | none => false
  | some (src, alt) =>
    !(strIncludes src "ghost-person") && !(strIncludes src "default-avatar")
      && !(strIncludes (toLowerStr alt) "default")

/-- The text normalisation of `extractProfileData`
(content.js lines 241, 251-254): trim, collapse whitespace runs,
collapse newline runs, trim again. -/
def cleanText (raw : String) : String :=
  ⟨jsTrimL (collapseNlAux false (collapseWsL (jsTrimL raw.data)))⟩

/-- `extractProfileData` (content.js lines 239-260). -/
def extractProfileData (card : CardElem) : ProfileData :=
  { text := cleanText card.text, hasProfilePic := hasProfilePicOf card }

/-- Badges the watcher inserts (`.lead-scorer-badge` elements):
loading spinner, score badge (value shown, reasoning as tooltip title),
error badge (failure message as tooltip title). -/
inductive Badge where
  | loading
  | score (value : Int) (title : String)
  | error (title : String)
deriving DecidableEq

/-- `isValidInvitationCard` (content.js lines 142-157), with the badge
children of the card passed explicitly. -/
def isValidInvitationCard (card : CardElem) (badges : List Badge) : Bool :=
  let t := jsTrim card.text
  if t = "" || t.length < 10 then false
  else if !badges.isEmpty then false
  else
    let hasProfileContent := card.hasCardContent
      || strIncludes t "mutual connection" || strIncludes t "connection"
    card.hasAcceptButton || hasProfileContent

/-! ## JSON values and `JSON.parse` (platform builtin used by background.js) -/

/-- JSON values as produced by `JSON.parse`.  Numbers are modelled as
integers (JS floats are out of scope; no claim depends on fractional
values). -/
inductive Json where
  | null
  | bool (b : Bool)
  | num (n : Int)
  | str (s : String)
  | arr (xs : List Json)
  | obj (fields : List (String × Json))

/-- JSON whitespace (space, tab, newline, carriage return). -/
def jsonWs (c : Char) : Bool :=
  c = ' ' || c = '\t' || c = '\n' || c = '\r'

/-- Value of a hex digit. -/
def hexVal (c : Char) : Option Nat :=
  if '0' ≤ c && c ≤ '9' then some (c.toNat - 48)
  else if 'a' ≤ c && c ≤ 'f' then some (c.toNat - 87)
  else if 'A' ≤ c && c ≤ 'F' then some (c.toNat - 55)
  else none

/-- Single-character JSON string escapes. -/
def escTable (c : Char) : Option Char :=
  if c = '\"' then some '\"'
  else if c = '\\' then some '\\'
  else if c = '/' then some '/'
  else if c = 'b' then some '\x08'
  else if c = 'f' then some '\x0c'
  else if c = 'n' then some '\n'
  else if c = 'r' then some '\r'
  else if c = 't' then some '\t'
  else none

/-- Body of a JSON string literal (after the opening quote), fuel-bounded;
returns the decoded characters and the input after the closing quote. -/
def parseStrBody : Nat → List Char → Option (List Char × List Char)
  | 0, _ => none
  | _, [] => none
  | fuel + 1, c :: cs =>
    if c = '\"' then some ([], cs)
    else if c = '\\' then
      match cs with
      | [] => none
      | e :: cs2 =>
        if e = 'u' then
          match cs2 with
          | h1 :: h2 :: h3 :: h4 :: cs3 => do
            let v1 ← hexVal h1
            let v2 ← hexVal h2
            let v3 ← hexVal h3
            let v4 ← hexVal h4
            let (body, rest) ← parseStrBody fuel cs3
            some (Char.ofNat (v1 * 4096 + v2 * 256 + v3 * 16 + v4) :: body, rest)
          | _ => none
        else do
          let ec ← escTable e
          let (body, rest) ← parseStrBody fuel cs2
          some (ec :: body, rest)
    else if c.toNat < 32 then none
    else do
      let (body, rest) ← parseStrBody fuel cs
      some (c :: body, rest)

/-- ASCII digit test. -/
def isDigitC (c : Char) : Bool := '0' ≤ c && c ≤ '9'

/-- Decimal value of a digit run. -/
def digitsToNat (l : List Char) : Nat :=
  l.foldl (fun a c => a * 10 + (c.toNat - 48)) 0

/-- JSON integer literal (optional minus sign, digit run, no leading
zeros).  Fractions and exponents are not modelled. -/
def parseIntLit (cs : List Char) : Option (Int × List Char) :=
  let (neg, cs1) :=
    match cs with
    | '-' :: rest => (true, rest)
    | _ => (false, cs)
  let ds := cs1.takeWhile isDigitC
  let rest := cs1.dropWhile isDigitC
  if ds.isEmpty then none
  else if 1 < ds.length && ds.headD 'x' = '0' then none
  else
    let n : Int := Int.ofNat (digitsToNat ds)
    some (if neg then -n else n, rest)

/-- Record a parsed object member; duplicate keys keep the last value,
as `JSON.parse` does. -/
def objInsert (fields : List (String × Json)) (k : String) (v : Json) :
    List (String × Json) :=
  fields.filter (fun kv => kv.1 ≠ k) ++ [(k, v)]

mutual

/-- Fuel-bounded recursive-descent JSON value parser.  The fuel passed at
top level (input length + 1) dominates both nesting depth and element
counts, since every recursive step consumes at least one character. -/
def parseVal : Nat → List Char → Option (Json × List Char)
  | 0, _ => none
  | fuel + 1, cs0 =>
    let cs := cs0.dropWhile jsonWs
    match cs with
    | [] => none
    | 'n' :: 'u' :: 'l' :: 'l' :: rest => some (Json.null, rest)
    | 't' :: 'r' :: 'u' :: 'e' :: rest => some (Json.bool true, rest)
    | 'f' :: 'a' :: 'l' :: 's' :: 'e' :: rest => some (Json.bool false, rest)
    | '\"' :: rest => do
      let (body, rest2) ← parseStrBody (rest.length + 1) rest
      some (Json.str ⟨body⟩, rest2)
    | '[' :: rest => parseArrTail fuel rest
    | '\x7b' :: rest => parseObjTail fuel rest
    | _ => (parseIntLit cs).map (fun p => (Json.num p.1, p.2))

/-- Array body after `[`. -/
def parseArrTail : Nat → List Char → Option (Json × List Char)
  | 0, _ => none
  | fuel + 1, cs => do
    let cs1 := cs.dropWhile jsonWs
    match cs1 with
    | ']' :: rest => some (Json.arr [], rest)
    | _ => do
      let (v, r1) ← parseVal fuel cs1
      parseArrRest fuel [v] r1

/-- Array continuation: separators and further elements. -/
def parseArrRest : Nat → List Json → List Char → Option (Json × List Char)
  | 0, _, _ => none
  | fuel + 1, acc, cs =>
    let cs1 := cs.dropWhile jsonWs
    match cs1 with
    | ']' :: rest => some (Json.arr acc.reverse, rest)
    | ',' :: rest => do
      let (v, r1) ← parseVal fuel rest
      parseArrRest fuel (v :: acc) r1
    | _ => none

/-- Object body after the opening brace. -/
def parseObjTail : Nat → List Char → Option (Json × List Char)
  | 0, _ => none
  | fuel + 1, cs =>
    let cs1 := cs.dropWhile jsonWs
    match cs1 with
    | '\x7d' :: rest => some (Json.obj [], rest)
    | _ => parseObjMember fuel [] cs1

/-- Object members: key string, colon, value, separators. -/
def parseObjMember : Nat → List (String × Json) → List Char → Option (Json × List Char)
  | 0, _, _ => none
  | fuel + 1, acc, cs =>
    let cs1 := cs.dropWhile jsonWs
    match cs1 with
    | '\"' :: rest => do
      let (kbody, r1) ← parseStrBody (rest.length + 1) rest
      let r2 := r1.dropWhile jsonWs
      match r2 with
      | ':' :: r3 => do
        let (v, r4) ← parseVal fuel r3
        let acc2 := objInsert acc ⟨kbody⟩ v
        let r5 := r4.dropWhile jsonWs
        match r5 with
        | ',' :: r6 => parseObjMember fuel acc2 r6
        | '\x7d' :: r6 => some (Json.obj acc2, r6)
        | _ => none
      | _ => none
    | _ => none

end

/-- The three kinds of exception background.js distinguishes: plain
`Error` (matched only by message), `SyntaxError` (from `JSON.parse`),
`TypeError` (property access on `undefined`/`null`). -/
inductive JsError where
  | err (message : String)
  | syntaxErr (message : String)
  | typeErr (message : String)
deriving DecidableEq

/-- `error.name === 'SyntaxError'` (background.js line 216). -/
def JsError.isSyntax : JsError → Bool
  | .syntaxErr _ => true
  | _ => false

/-- `error.message`. -/
def JsError.message : JsError → String
  | .err m => m
  | .syntaxErr m => m
  | .typeErr m => m

/-- `JSON.parse` on a string: a parse that must consume the whole input
modulo trailing JSON whitespace, raising `SyntaxError` otherwise. -/
def jsonParse (s : String) : Except JsError Json :=
  match parseVal (s.data.length + 1) s.data with
  | some (v, rest) =>
    if (rest.dropWhile jsonWs).isEmpty then Except.ok v
    else Except.error (JsError.syntaxErr "Unexpected token in JSON")
  | none => Except.error (JsError.syntaxErr "Unexpected token in JSON")

mutual

/-- JS `String(...)` coercion of a JSON value, as applied by `JSON.parse`
to a non-string argument. -/
def jsToString : Json → String
  | Json.null => "null"
  | Json.bool true => "true"
  | Json.bool false => "false"
  | Json.num n => toString n
  | Json.str s => s
  | Json.arr xs => String.intercalate "," (jsToStringList xs)
  | Json.obj _ => "[object Object]"

/-- Array elements under `Array.prototype.toString`: `null` becomes the
empty string, other elements are coerced recursively. -/
def jsToStringList : List Json → List String
  | [] => []
  | x :: xs =>
    (match x with
     | Json.null => ""
     | v => jsToString v) :: jsToStringList xs

end

/-- `JSON.parse` applied to a possibly-undefined JS value (the extracted
text payload): the argument is coerced with `String(...)` first, so
`undefined` parses the text `undefined` and fails with `SyntaxError`. -/
def jsonParseJs (v : Option Json) : Except JsError Json :=
  match v with
  | none => jsonParse "undefined"
  | some j => jsonParse (jsToString j)

/-! ## JS property access -/

/-- Own-property lookup in an object field list. -/
def lookupField : List (String × Json) → String → Option Json
  | [], _ => none
  | (k2, v) :: rest, k => if k2 = k then some v else lookupField rest k

/-- Property read on a JSON value: objects yield their field (or
`undefined`), primitives and arrays yield `undefined` for the names used
here. -/
def Json.getProp : Json → String → Option Json
  | Json.obj fields, k => lookupField fields k
  | _, _ => none

/-- JS property access `base[key]` where `base` may be `undefined`
(modelled `none`): access on `undefined` or `null` throws `TypeError`. -/
def jsGet (base : Option Json) (key : String) : Except JsError (Option Json) :=
  match base with
  | none =>
    Except.error (JsError.typeErr ("Cannot read properties of undefined (reading " ++ key ++ ")"))
  | some Json.null =>
    Except.error (JsError.typeErr ("Cannot read properties of null (reading " ++ key ++ ")"))
  | some j => Except.ok (j.getProp key)

/-- JS index access `base[i]`: arrays yield the element (or `undefined`
out of range); other defined bases yield `undefined` for the indices used
here. -/
def jsIndex (base : Option Json) (i : Nat) : Except JsError (Option Json) :=
  match base with
  | none =>
    Except.error (JsError.typeErr "Cannot read properties of undefined (reading 0)")
  | some Json.null =>
    Except.error (JsError.typeErr "Cannot read properties of null (reading 0)")
  | some (Json.arr xs) => Except.ok xs[i]?
  | some _ => Except.ok none

/-! ## Provider configurations and `callLLMAPI`
(background.js lines 5-73, 176-221) -/

/-- The keys of `API_CONFIGS`. -/
inductive Provider where
  | openai
  | gemini
  | anthropic
deriving DecidableEq

/-- `API_CONFIGS[provider]` (background.js line 177). -/
def apiConfigLookup (p : String) : Option Provider :=
  if p = "openai" then some Provider.openai
  else if p = "gemini" then some Provider.gemini
  else if p = "anthropic" then some Provider.anthropic
  else none

/-- The navigation part of each provider's `parseResponse` closure:
`response.choices[0].message.content` (openai),
`response.candidates[0].content.parts[0].text` (gemini),
`response.content[0].text` (anthropic). -/
def extractTextPayload : Provider → Json → Except JsError (Option Json)
  | Provider.openai, resp => do
    let choices ← jsGet (some resp) "choices"
    let c0 ← jsIndex choices 0
    let msg ← jsGet c0 "message"
    jsGet msg "content"
  | Provider.gemini, resp => do
    let cands ← jsGet (some resp) "candidates"
    let c0 ← jsIndex cands 0
    let content ← jsGet c0 "content"
    let parts ← jsGet content "parts"
    let p0 ← jsIndex parts 0
    jsGet p0 "text"
  | Provider.anthropic, resp => do
    let content ← jsGet (some resp) "content"
    let c0 ← jsIndex content 0
    jsGet c0 "text"

/-- A provider's `parseResponse`: navigate to the nested text payload,
then `JSON.parse` it. -/
def parseResponse (p : Provider) (resp : Json) : Except JsError Json :=
  match extractTextPayload p resp with
  | Except.error e => Except.error e
  | Except.ok t => jsonParseJs t

/-- The transport response as seen by `callLLMAPI`: the HTTP status and
the raw body text (`response.text()` reads it directly, `response.json()`
parses it). -/
structure HttpResponse where
  status : Nat
  body : String
deriving DecidableEq

/-- `response.ok`: status in the range 200-299. -/
def responseOk (r : HttpResponse) : Bool :=
  200 ≤ r.status && r.status ≤ 299

/-- The canonical scoring result.  The source returns the whole decoded
object; only its `totalScore` and `reasoning` fields are ever read by
callers, so the model returns exactly those two validated fields. -/
structure ScoreResult where
  totalScore : Int
  reasoning : String
deriving DecidableEq

/-- The response-format validation (background.js lines 208-213):
`typeof result.totalScore !== 'number' || typeof result.reasoning !==
'string'` throws `Error('Invalid response format from LLM')`; the
property reads themselves throw `TypeError` when `result` is `null`. -/
def validateResult (result : Json) : Except JsError ScoreResult :=
  match jsGet (some result) "totalScore" with
  | Except.error e => Except.error e
  | Except.ok ts =>
    match ts with
    | some (Json.num n) =>
      match jsGet (some result) "reasoning" with
      | Except.error e => Except.error e
      | Except.ok rs =>
        match rs with
        | some (Json.str s) => Except.ok ⟨n, s⟩
        | _ => Except.error (JsError.err "Invalid response format from LLM")
    | _ => Except.error (JsError.err "Invalid response format from LLM")

/-- The `try` block of `callLLMAPI` (background.js lines 182-213):
non-2xx status throws an `Error` carrying status and body text; otherwise
the body is decoded, navigated, decoded again and shape-checked. -/
def callBody (cfg : Provider) (resp : HttpResponse) : Except JsError ScoreResult :=
  if !responseOk resp then
    Except.error (JsError.err ("API request failed (" ++ toString resp.status ++ "): " ++ resp.body))
  else
    match jsonParse resp.body with
    | Except.error e => Except.error e
    | Except.ok responseData =>
      match parseResponse cfg responseData with
      | Except.error e => Except.error e
      | Except.ok result => validateResult result

/-- `callLLMAPI` (background.js lines 176-221).  The unknown-provider
check sits outside the `try`; the `catch` converts any `SyntaxError` into
`Error('LLM returned invalid JSON response')` and rethrows everything
else.  The request-building arguments (`model`, `apiKey`, `profileData`)
shape only the outgoing request and cannot fail, so the model keeps them
in the signature without consuming them. -/
def callLLMAPI (provider model apiKey : String) (profileData : ProfileData)
    (response : HttpResponse) : Except JsError ScoreResult :=
  match apiConfigLookup provider with
  | none => Except.error (JsError.err ("Unsupported provider: " ++ provider))
  | some cfg =>
    match callBody cfg response with
    | Except.ok r => Except.ok r
    | Except.error e =>
      if e.isSyntax then Except.error (JsError.err "LLM returned invalid JSON response")
      else Except.error e

/-! ## `handleScoreProfile` (background.js lines 103-137) -/

/-- The persisted settings as read from `chrome.storage.sync.get`; a
missing key is `none`. -/
structure Settings where
  modelProvider : Option String
  modelSelection : Option String
  apiKey : Option String
deriving DecidableEq

/-- JS truthiness of a possibly-missing string: `undefined` and the empty
string are falsy. -/
def jsTruthyStr (v : Option String) : Bool :=
  match v with
  | none => false
  | some s => !(s = "")

/-- The reply sent back over the message channel:
`{ success: true, score, reasoning }` or `{ success: false, error }`. -/
inductive Reply where
  | success (score : Int) (reasoning : String)
  | failure (error : String)
deriving DecidableEq

/-- `error.message || 'Failed to score profile'`. -/
def jsOrDefault (s d : String) : String := if s = "" then d else s

/-- `handleScoreProfile` (background.js lines 103-137), with the storage
read and the transport response supplied as inputs. -/
def handleScoreProfile (settings : Settings) (profileData : ProfileData)
    (response : HttpResponse) : Reply :=
  if !jsTruthyStr settings.modelProvider || !jsTruthyStr settings.modelSelection
      || !jsTruthyStr settings.apiKey then
    Reply.failure "Extension not configured. Please set up your API key in the popup."
  else
    match callLLMAPI (settings.modelProvider.getD "") (settings.modelSelection.getD "")
        (settings.apiKey.getD "") profileData response with
    | Except.ok r => Reply.success r.totalScore r.reasoning
    | Except.error e => Reply.failure (jsOrDefault e.message "Failed to score profile")

/-! ## The card watcher as a transition system (content.js lines 14,
54-109, 162-234, 344-351)

The page holds a fixed list of card elements (`cards : List CardElem`,
addressed by index); the watcher's mutable state is the `processedCards`
set, the badge children it has inserted per card, and the set of cards
with an in-flight `scoreProfile` message.  `processInvitationCard` is an
async function whose sync prefix (everything up to `await
chrome.runtime.sendMessage`) runs atomically in the single-threaded event
loop; the continuation after the `await` runs when the message settles.
Events model the interleavings the event loop allows: a mutation-observer
callback over a batch of card indices, the settling of one in-flight
message, and the `extensionReloaded` message. -/

/-- Watcher state: `processed` is the `processedCards` set (membership
semantics), `badges` the `.lead-scorer-badge` children per card index,
`pending` the indices with an in-flight scoring message. -/
structure SysState where
  processed : List String
  badges : List (List Badge)
  pending : List Nat
deriving DecidableEq

/-- A `scoreProfile` message sent to the background script. -/
structure Submission where
  idx : Nat
  payload : ProfileData
deriving DecidableEq

/-- How an awaited `sendMessage` promise settles: resolved with the
background's reply, or rejected (the `catch` path). -/
inductive Outcome where
  | resolved (r : Reply)
  | rejected (msg : String)
deriving DecidableEq

/-- Event-loop turns that touch the watcher state. -/
inductive Event where
  | observe (is : List Nat)
  | respond (i : Nat) (outcome : Outcome)
  | reload
deriving DecidableEq

/-- The badge children of card `i`. -/
def badgesAt (s : SysState) (i : Nat) : List Badge :=
  s.badges[i]?.getD []

/-- Replace card `i`'s badge children by `f` applied to them. -/
def updateBadgesAt (s : SysState) (i : Nat) (f : List Badge → List Badge) : SysState :=
  { s with badges := s.badges.set i (f (badgesAt s i)) }

/-- `isCardProcessed` (content.js lines 162-165): identity already in the
set, or the card already bears a badge. -/
def isCardProcessed (cards : List CardElem) (i : Nat) (s : SysState) : Bool :=
  match cards[i]? with
  | none => false
  | some card => decide (getCardId card.text ∈ s.processed) || !(badgesAt s i).isEmpty

/-- Whether a scan offers card `i` to `processInvitationCard`: it must
match the card selectors, pass `isValidInvitationCard`, and not be
processed yet (content.js lines 58-60, 76-78, 87-89, 121). -/
def shouldProcess (cards : List CardElem) (i : Nat) (s : SysState) : Bool :=
  match cards[i]? with
  | none => false
  | some card =>
    card.matchesSelector && isValidInvitationCard card (badgesAt s i)
      && !isCardProcessed cards i s

/-- The synchronous prefix of `processInvitationCard` (content.js lines
179-202): mark the identity processed, extract the snapshot, abort
silently on short text, otherwise insert the loading badge and send the
scoring message (recorded as a `Submission`, with the card now pending). -/
def processCardSync (cards : List CardElem) (i : Nat) (s : SysState) :
    SysState × List Submission :=
  match cards[i]? with
  | none => (s, [])
  | some card =>
    let cardId := getCardId card.text
    let s1 := { s with processed := cardId :: s.processed }
    let pd := extractProfileData card
    if pd.text = "" || pd.text.length < 10 then (s1, [])
    else
      let s2 := updateBadgesAt s1 i (fun bs => bs ++ [Badge.loading])
      ({ s2 with pending := i :: s2.pending }, [⟨i, pd⟩])

/-- One card of a scan batch: filter, then run the sync prefix. -/
def processCardIfNew (cards : List CardElem) (i : Nat) (s : SysState) :
    SysState × List Submission :=
  if shouldProcess cards i s then processCardSync cards i s else (s, [])

/-- A whole scan batch (the mutation-observer callback body, and
`processExistingCards`), threading state left to right. -/
def processBatch (cards : List CardElem) (is : List Nat) (s : SysState) :
    SysState × List Submission :=
  match is with
  | [] => (s, [])
  | i :: rest =>
    let p1 := processCardIfNew cards i s
    let p2 := processBatch cards rest p1.1
    (p2.1, p1.2 ++ p2.2)

/-- `loadingBadge.remove()`: the sync prefix inserted exactly one loading
badge for this invocation; remove the first one. -/
def removeFirstLoading : List Badge → List Badge
  | [] => []
  | Badge.loading :: rest => rest
  | b :: rest => b :: removeFirstLoading rest

/-- The `catch` path removes `card.querySelector('.lead-scorer-badge')`,
the first badge of any kind. -/
def removeFirstBadge : List Badge → List Badge
  | [] => []
  | _ :: rest => rest

/-- The continuation of `processInvitationCard` after the `await`
(content.js lines 204-233): drop the loading badge, then insert a score
badge or an error badge; the `catch` branch uses the fixed message
`Processing failed`.  A respond event for a card with no in-flight
message is ignored (the event loop never delivers one). -/
def respondStep (i : Nat) (outcome : Outcome) (s : SysState) : SysState :=
  if i ∈ s.pending then
    let s0 := { s with pending := s.pending.erase i }
    match outcome with
    | Outcome.resolved (Reply.success n r) =>
      updateBadgesAt s0 i (fun bs => removeFirstLoading bs ++ [Badge.score n r])
    | Outcome.resolved (Reply.failure e) =>
      updateBadgesAt s0 i (fun bs => removeFirstLoading bs ++ [Badge.error e])
    | Outcome.rejected _ =>
      updateBadgesAt s0 i (fun bs => removeFirstBadge bs ++ [Badge.error "Processing failed"])
  else s

/-- `extensionReloaded` (content.js lines 345-351): clear
`processedCards`, then `processExistingCards` re-scans every card. -/
def reloadStep (cards : List CardElem) (s : SysState) : SysState × List Submission :=
  processBatch cards (List.range cards.length) { s with processed := [] }

/-- One event-loop turn. -/
def step (cards : List CardElem) (s : SysState) (e : Event) :
    SysState × List Submission :=
  match e with
  | Event.observe is => processBatch cards is s
  | Event.respond i outcome => (respondStep i outcome s, [])
  | Event.reload => reloadStep cards s

/-- Run a trace of events, collecting all submissions. -/
def run (cards : List CardElem) (s : SysState) (events : List Event) :
    SysState × List Submission :=
  match events with
  | [] => (s, [])
  | e :: rest =>
    let p1 := step cards s e
    let p2 := run cards p1.1 rest
    (p2.1, p1.2 ++ p2.2)

/-- The state at page load: nothing processed, no badges, nothing in
flight. -/
def initState (cards : List CardElem) : SysState :=
  { processed := [], badges := List.replicate cards.length [], pending := [] }

/-- Does a submission target a card with identity `id`? -/
def subMatchesId (cards : List CardElem) (id : String) (sub : Submission) : Bool :=
  match cards[sub.idx]? with
  | some c => getCardId c.text = id
  | none => false

/-- How many submissions of the trace targeted identity `id`. -/
def subIdCount (cards : List CardElem) (id : String) (subs : List Submission) : Nat :=
  (subs.filter (subMatchesId cards id)).length

/-! ## Concrete fixtures used by witnesses and counterexamples -/

/-- A well-formed invitation card used by several concrete scenarios. -/
def cardJane : CardElem :=
  { text := "Jane Doe Founder at Acme San Francisco"
    matchesSelector := true, hasAcceptButton := true
    hasCardContent := true, img := none }

/-- A card whose raw trimmed text passes the validity threshold (length
13) but whose cleaned snapshot text `aa bb` is shorter than 10. -/
def cardShortClean : CardElem :=
  { text := "aa\t\t\t\t\t\t\t\t\tbb"
    matchesSelector := true, hasAcceptButton := true
    hasCardContent := true, img := none }

/-- A fully configured settings record. -/
def settingsFull : Settings := ⟨some "openai", some "gpt-4o", some "sk-test"⟩

/-- An openai-shaped 200 body whose payload decodes to
`\x7b"totalScore": 5, "reasoning": "ok"\x7d`. -/
def bodyOkPayload : String :=
  "\x7b\"choices\":[\x7b\"message\":\x7b\"content\":\"\x7b\\\"totalScore\\\":5,\\\"reasoning\\\":\\\"ok\\\"\x7d\"\x7d\x7d]\x7d"

/-- An openai-shaped 200 body whose payload decodes with an empty
`reasoning` string. -/
def bodyEmptyReasoning : String :=
  "\x7b\"choices\":[\x7b\"message\":\x7b\"content\":\"\x7b\\\"totalScore\\\":5,\\\"reasoning\\\":\\\"\\\"\x7d\"\x7d\x7d]\x7d"

/-- An openai-shaped 200 body whose extracted text payload is not JSON. -/
def bodyBadJson : String :=
  "\x7b\"choices\":[\x7b\"message\":\x7b\"content\":\"oops\"\x7d\x7d]\x7d"

/-- An openai-shaped 200 body whose extracted text payload decodes to
JSON `null`. -/
def bodyNullPayload : String :=
  "\x7b\"choices\":[\x7b\"message\":\x7b\"content\":\"null\"\x7d\x7d]\x7d"

/-- An openai-shaped 200 body whose payload decodes to an object with a
string `totalScore`. -/
def bodyBadShape : String :=
  "\x7b\"choices\":[\x7b\"message\":\x7b\"content\":\"\x7b\\\"totalScore\\\":\\\"hi\\\"\x7d\"\x7d\x7d]\x7d"

/-! ## Claim C2: card identity is a function of the leading trimmed text -/

/-- Claim C2: `getCardId` is a deterministic pure function of the card's
text (it is a Lean function), and any two card texts whose normalised
(trimmed, as `getCardId` itself normalises) content agrees on the first
100 characters receive the same identity. -/
theorem c2_identity_collision (s t : String)
    (h : (jsTrim s).data.take 100 = (jsTrim t).data.take 100) :
    getCardId s = getCardId t := by
  show (⟨((btoa ⟨(jsTrim s).data.take 100⟩).data.filter isAlphanumAscii).take 20⟩ : String)
      = ⟨((btoa ⟨(jsTrim t).data.take 100⟩).data.filter isAlphanumAscii).take 20⟩
  rw [h]

/-- Witness for C2 at concrete inputs: two distinct raw texts with equal
trimmed 100-character prefixes share an identity. -/
theorem c2_identity_collision_witness :
    (jsTrim "  Jane Doe Founder  ").data.take 100
      = (jsTrim "Jane Doe Founder").data.take 100
    ∧ getCardId "  Jane Doe Founder  " = getCardId "Jane Doe Founder" :=
  ⟨rfl, c2_identity_collision "  Jane Doe Founder  " "Jane Doe Founder" rfl⟩

/-! ## Claim C3: tier classification -/

/-- Claim C3: `getScoreClass` is total over the integers (it is a total
Lean function) and boundary-exact with inclusive lower bounds, the
highest matching tier winning. -/
theorem c3_tier_boundaries (s : Int) :
    (20 ≤ s → getScoreClass s = "score-excellent")
    ∧ (10 ≤ s ∧ s ≤ 19 → getScoreClass s = "score-good")
    ∧ (5 ≤ s ∧ s ≤ 9 → getScoreClass s = "score-fair")
    ∧ (0 ≤ s ∧ s ≤ 4 → getScoreClass s = "score-poor")
    ∧ (s < 0 → getScoreClass s = "score-negative") := by
  unfold getScoreClass
  refine ⟨?_, ?_, ?_, ?_, ?_⟩ <;> intro h <;> split_ifs <;> first | rfl | omega

/-- Witness for C3 at every boundary value named by the claim. -/
theorem c3_tier_boundaries_witness :
    getScoreClass 20 = "score-excellent" ∧ getScoreClass 19 = "score-good"
    ∧ getScoreClass 10 = "score-good" ∧ getScoreClass 9 = "score-fair"
    ∧ getScoreClass 5 = "score-fair" ∧ getScoreClass 4 = "score-poor"
    ∧ getScoreClass 0 = "score-poor" ∧ getScoreClass (-1) = "score-negative" :=
  ⟨(c3_tier_boundaries 20).1 (by decide),
   (c3_tier_boundaries 19).2.1 (by decide),
   (c3_tier_boundaries 10).2.1 (by decide),
   (c3_tier_boundaries 9).2.2.1 (by decide),
   (c3_tier_boundaries 5).2.2.1 (by decide),
   (c3_tier_boundaries 4).2.2.2.1 (by decide),
   (c3_tier_boundaries 0).2.2.2.1 (by decide),
   (c3_tier_boundaries (-1)).2.2.2.2 (by decide)⟩

/-! ## Claim C10: missing settings short-circuit -/

/-- Claim C10: if any of the three persisted settings is missing (or
falsy), `handleScoreProfile` replies with the structured configuration
failure, and the reply does not depend on the transport response at all
(no HTTP request is consulted). -/
theorem c10_unconfigured_no_request (settings : Settings) (pd : ProfileData)
    (resp : HttpResponse)
    (h : jsTruthyStr settings.modelProvider = false
        ∨ jsTruthyStr settings.modelSelection = false
        ∨ jsTruthyStr settings.apiKey = false) :
    handleScoreProfile settings pd resp
      = Reply.failure "Extension not configured. Please set up your API key in the popup."
    ∧ ∀ resp2, handleScoreProfile settings pd resp
      = handleScoreProfile settings pd resp2 := by
  have hcond : (!jsTruthyStr settings.modelProvider || !jsTruthyStr settings.modelSelection
      || !jsTruthyStr settings.apiKey) = true := by
    rcases h with h | h | h <;> simp [h]
  refine ⟨?_, fun resp2 => ?_⟩ <;> simp [handleScoreProfile, hcond]

/-- Witness for C10: missing provider id with a concrete 200 response. -/
theorem c10_unconfigured_no_request_witness :
    (jsTruthyStr (Settings.mk none (some "gpt-4o") (some "sk-test")).modelProvider = false
      ∨ jsTruthyStr (Settings.mk none (some "gpt-4o") (some "sk-test")).modelSelection = false
      ∨ jsTruthyStr (Settings.mk none (some "gpt-4o") (some "sk-test")).apiKey = false)
    ∧ handleScoreProfile (Settings.mk none (some "gpt-4o") (some "sk-test"))
        ⟨"Jane Doe Founder", true⟩ ⟨200, bodyOkPayload⟩
      = Reply.failure "Extension not configured. Please set up your API key in the popup." :=
  ⟨Or.inl rfl,
   (c10_unconfigured_no_request (Settings.mk none (some "gpt-4o") (some "sk-test"))
     ⟨"Jane Doe Founder", true⟩ ⟨200, bodyOkPayload⟩ (Or.inl rfl)).1⟩

/-! ## Claims C4 and C5: failure taxonomy and success shape of `callLLMAPI` -/

/-- Property access on a defined non-null value never throws. -/
theorem jsGet_some_of_ne_null (j : Json) (k : String) (h : j ≠ Json.null) :
    jsGet (some j) k = Except.ok (j.getProp k) := by
  cases j with
  | null => exact absurd rfl h
  | bool b => rfl
  | num n => rfl
  | str s => rfl
  | arr xs => rfl
  | obj fields => rfl

/-- A validated result exposes exactly the decoded payload's numeric
`totalScore` and string `reasoning`. -/
theorem validateResult_ok_shape {r0 : Json} {out : ScoreResult}
    (h : validateResult r0 = Except.ok out) :
    r0.getProp "totalScore" = some (Json.num out.totalScore)
    ∧ r0.getProp "reasoning" = some (Json.str out.reasoning) := by
  by_cases hn : r0 = Json.null
  · subst hn
    simp [validateResult, jsGet] at h
  · unfold validateResult at h
    rw [jsGet_some_of_ne_null _ _ hn] at h
    cases hts : r0.getProp "totalScore" with
    | none => rw [hts] at h; simp at h
    | some ts =>
      rw [hts] at h
      cases ts with
      | num n =>
        rw [jsGet_some_of_ne_null _ _ hn] at h
        cases hrs : r0.getProp "reasoning" with
        | none => rw [hrs] at h; simp at h
        | some rs =>
          rw [hrs] at h
          cases rs with
          | str s =>
            simp only [Except.ok.injEq] at h
            subst h
            constructor
            · simpa using hts
            · simpa using hrs
          | null => simp at h
          | bool b => simp at h
          | num n2 => simp at h
          | arr xs => simp at h
          | obj fields => simp at h
      | null => simp at h
      | bool b => simp at h
      | str s => simp at h
      | arr xs => simp at h
      | obj fields => simp at h

/-- If the decoded payload is not `null` and its shape is wrong, the
validation throws the malformed-response error. -/
theorem validateResult_malformed {r0 : Json} (hn : r0 ≠ Json.null)
    (hbad : (∀ n, r0.getProp "totalScore" ≠ some (Json.num n))
      ∨ (∀ str, r0.getProp "reasoning" ≠ some (Json.str str))) :
    validateResult r0 = Except.error (JsError.err "Invalid response format from LLM") := by
  unfold validateResult
  rw [jsGet_some_of_ne_null _ _ hn]
  cases hts : r0.getProp "totalScore" with
  | none => rfl
  | some ts =>
    cases ts with
    | num n =>
      rcases hbad with hbad | hbad
      · exact absurd hts (hbad n)
      · rw [jsGet_some_of_ne_null _ _ hn]
        cases hrs : r0.getProp "reasoning" with
        | none => rfl
        | some rs =>
          cases rs with
          | str s => exact absurd hrs (hbad s)
          | null => rfl
          | bool b => rfl
          | num n2 => rfl
          | arr xs => rfl
          | obj fields => rfl
    | null => rfl
    | bool b => rfl
    | str s => rfl
    | arr xs => rfl
    | obj fields => rfl

/-- Claim C4 (amended): `callLLMAPI` failures are classified by cause —
unknown provider id, non-2xx HTTP status (message carries status and
body), undecodable extracted text payload, and (for non-`null` decoded
payloads) wrong payload shape; the invalid-JSON and malformed-response
messages are distinct; and every `callLLMAPI` error reaches the caller
as a structured `success: false` reply.  The amendment: a decoded
payload equal to JSON `null` fails with a property-access (`TypeError`)
structured failure instead of the malformed-response error (see the
counterexample). -/
theorem c4_error_taxonomy :
    (∀ p m k pd resp, apiConfigLookup p = none →
      callLLMAPI p m k pd resp
        = Except.error (JsError.err ("Unsupported provider: " ++ p)))
    ∧ (∀ p cfg m k pd resp, apiConfigLookup p = some cfg → responseOk resp = false →
      callLLMAPI p m k pd resp
        = Except.error (JsError.err
            ("API request failed (" ++ toString resp.status ++ "): " ++ resp.body)))
    ∧ (∀ p cfg m k pd resp respData t msg, apiConfigLookup p = some cfg →
      responseOk resp = true → jsonParse resp.body = Except.ok respData →
      extractTextPayload cfg respData = Except.ok t →
      jsonParseJs t = Except.error (JsError.syntaxErr msg) →
      callLLMAPI p m k pd resp
        = Except.error (JsError.err "LLM returned invalid JSON response"))
    ∧ (∀ p cfg m k pd resp respData t payload, apiConfigLookup p = some cfg →
      responseOk resp = true → jsonParse resp.body = Except.ok respData →
      extractTextPayload cfg respData = Except.ok t →
      jsonParseJs t = Except.ok payload → payload ≠ Json.null →
      ((∀ n, payload.getProp "totalScore" ≠ some (Json.num n))
        ∨ (∀ str, payload.getProp "reasoning" ≠ some (Json.str str))) →
      callLLMAPI p m k pd resp
        = Except.error (JsError.err "Invalid response format from LLM"))
    ∧ ("LLM returned invalid JSON response" ≠ "Invalid response format from LLM")
    ∧ (∀ settings pd resp e,
      jsTruthyStr settings.modelProvider = true →
      jsTruthyStr settings.modelSelection = true →
      jsTruthyStr settings.apiKey = true →
      callLLMAPI (settings.modelProvider.getD "") (settings.modelSelection.getD "")
        (settings.apiKey.getD "") pd resp = Except.error e →
      handleScoreProfile settings pd resp
        = Reply.failure (jsOrDefault e.message "Failed to score profile")) := by
  refine ⟨?_, ?_, ?_, ?_, ?_, ?_⟩
  · intro p m k pd resp h
    simp [callLLMAPI, h]
  · intro p cfg m k pd resp hcfg hok
    simp [callLLMAPI, hcfg, callBody, hok, JsError.isSyntax]
  · intro p cfg m k pd resp respData t msg hcfg hok hjson hex hpj
    simp [callLLMAPI, hcfg, callBody, hok, hjson, parseResponse, hex, hpj, JsError.isSyntax]
  · intro p cfg m k pd resp respData t payload hcfg hok hjson hex hpj hnull hbad
    simp [callLLMAPI, hcfg, callBody, hok, hjson, parseResponse, hex, hpj,
      validateResult_malformed hnull hbad, JsError.isSyntax]
  · decide
  · intro settings pd resp e hp hm hk hcall
    simp [handleScoreProfile, hp, hm, hk, hcall]

set_option maxRecDepth 100000 in
/-- Witness for C4: each classification instantiated on a concrete
response (unknown provider; HTTP 401; non-JSON payload; string-typed
`totalScore`; and propagation of the 401 failure to the reply). -/
theorem c4_error_taxonomy_witness :
    callLLMAPI "grok" "m" "k" ⟨"Jane Doe Founder", true⟩ ⟨200, bodyOkPayload⟩
      = Except.error (JsError.err "Unsupported provider: grok")
    ∧ callLLMAPI "openai" "gpt-4o" "sk-test" ⟨"Jane Doe Founder", true⟩ ⟨401, "Unauthorized"⟩
      = Except.error (JsError.err "API request failed (401): Unauthorized")
    ∧ callLLMAPI "openai" "gpt-4o" "sk-test" ⟨"Jane Doe Founder", true⟩ ⟨200, bodyBadJson⟩
      = Except.error (JsError.err "LLM returned invalid JSON response")
    ∧ callLLMAPI "openai" "gpt-4o" "sk-test" ⟨"Jane Doe Founder", true⟩ ⟨200, bodyBadShape⟩
      = Except.error (JsError.err "Invalid response format from LLM")
    ∧ handleScoreProfile settingsFull ⟨"Jane Doe Founder", true⟩ ⟨401, "Unauthorized"⟩
      = Reply.failure (jsOrDefault
          (JsError.err "API request failed (401): Unauthorized").message
          "Failed to score profile") :=
  ⟨c4_error_taxonomy.1 "grok" "m" "k" ⟨"Jane Doe Founder", true⟩ ⟨200, bodyOkPayload⟩ rfl,
   c4_error_taxonomy.2.1 "openai" Provider.openai "gpt-4o" "sk-test" ⟨"Jane Doe Founder", true⟩
     ⟨401, "Unauthorized"⟩ rfl rfl,
   c4_error_taxonomy.2.2.1 "openai" Provider.openai "gpt-4o" "sk-test" ⟨"Jane Doe Founder", true⟩
     ⟨200, bodyBadJson⟩ (Json.obj [("choices",
       Json.arr [Json.obj [("message", Json.obj [("content", Json.str "oops")])]])])
     (some (Json.str "oops")) "Unexpected token in JSON" rfl rfl rfl rfl rfl,
   c4_error_taxonomy.2.2.2.1 "openai" Provider.openai "gpt-4o" "sk-test" ⟨"Jane Doe Founder", true⟩
     ⟨200, bodyBadShape⟩ (Json.obj [("choices",
       Json.arr [Json.obj [("message", Json.obj [("content",
         Json.str "\x7b\"totalScore\":\"hi\"\x7d")])]])])
     (some (Json.str "\x7b\"totalScore\":\"hi\"\x7d"))
     (Json.obj [("totalScore", Json.str "hi")]) rfl rfl rfl rfl rfl
     (by intro hc; cases hc) (Or.inl (by intro n hc; cases hc)),
   c4_error_taxonomy.2.2.2.2.2 settingsFull ⟨"Jane Doe Founder", true⟩ ⟨401, "Unauthorized"⟩
     (JsError.err "API request failed (401): Unauthorized") rfl rfl rfl rfl⟩

set_option maxRecDepth 100000 in
/-- Counterexample for C4 as stated: the openai 200 response whose
extracted payload decodes to JSON `null` has a non-numeric (absent)
`totalScore`, yet `callLLMAPI` fails with a property-access `TypeError`
message, not the malformed-response error. -/
theorem c4_null_payload_counterexample :
    jsonParse "null" = Except.ok Json.null
    ∧ Json.null.getProp "totalScore" = none
    ∧ callLLMAPI "openai" "gpt-4o" "sk-test" ⟨"Jane Doe Founder", true⟩ ⟨200, bodyNullPayload⟩
      = Except.error (JsError.typeErr "Cannot read properties of null (reading totalScore)")
    ∧ callLLMAPI "openai" "gpt-4o" "sk-test" ⟨"Jane Doe Founder", true⟩ ⟨200, bodyNullPayload⟩
      ≠ Except.error (JsError.err "Invalid response format from LLM") :=
  ⟨rfl, rfl, rfl, by
    rw [show callLLMAPI "openai" "gpt-4o" "sk-test" ⟨"Jane Doe Founder", true⟩
        ⟨200, bodyNullPayload⟩
      = Except.error (JsError.typeErr "Cannot read properties of null (reading totalScore)")
      from rfl]
    simp⟩

/-- `callLLMAPI` with an unknown provider id. -/
theorem callLLMAPI_lookup_none {p : String} (hcfg : apiConfigLookup p = none)
    (m k : String) (pd : ProfileData) (resp : HttpResponse) :
    callLLMAPI p m k pd resp
      = Except.error (JsError.err ("Unsupported provider: " ++ p)) := by
  unfold callLLMAPI
  rw [hcfg]

/-- `callLLMAPI` with a known provider id, spelled out. -/
theorem callLLMAPI_lookup_some {p : String} {cfg : Provider}
    (hcfg : apiConfigLookup p = some cfg)
    {m k : String} {pd : ProfileData} {resp : HttpResponse} :
    callLLMAPI p m k pd resp
      = match callBody cfg resp with
        | Except.ok r => Except.ok r
        | Except.error e =>
          if e.isSyntax then Except.error (JsError.err "LLM returned invalid JSON response")
          else Except.error e := by
  unfold callLLMAPI
  rw [hcfg]

/-- The `try` body on a 2xx response, spelled out. -/
theorem callBody_ok {resp : HttpResponse} (hok : responseOk resp = true)
    {cfg : Provider} :
    callBody cfg resp
      = match jsonParse resp.body with
        | Except.error e => Except.error e
        | Except.ok responseData =>
          match parseResponse cfg responseData with
          | Except.error e => Except.error e
          | Except.ok result => validateResult result := by
  unfold callBody
  rw [hok]
  rfl

/-- The `try` body on a non-2xx response. -/
theorem callBody_http_fail {resp : HttpResponse} (hok : responseOk resp = false)
    {cfg : Provider} :
    callBody cfg resp
      = Except.error (JsError.err
          ("API request failed (" ++ toString resp.status ++ "): " ++ resp.body)) := by
  unfold callBody
  rw [hok]
  rfl

/-- Claim C5 (amended): whenever `callLLMAPI` succeeds, the decoded
payload carried a numeric `totalScore` and a string `reasoning` (the
string may be empty — see the counterexample), and the returned result
is exactly those two values. -/
theorem c5_success_shape (p m k : String) (pd : ProfileData) (resp : HttpResponse)
    (r : ScoreResult) (h : callLLMAPI p m k pd resp = Except.ok r) :
    ∃ cfg respData t payload,
      apiConfigLookup p = some cfg ∧ responseOk resp = true
      ∧ jsonParse resp.body = Except.ok respData
      ∧ extractTextPayload cfg respData = Except.ok t
      ∧ jsonParseJs t = Except.ok payload
      ∧ payload.getProp "totalScore" = some (Json.num r.totalScore)
      ∧ payload.getProp "reasoning" = some (Json.str r.reasoning) := by
  cases hcfg : apiConfigLookup p with
  | none => rw [callLLMAPI_lookup_none hcfg] at h; simp at h
  | some cfg =>
    rw [callLLMAPI_lookup_some hcfg] at h
    cases hcb : callBody cfg resp with
    | error e =>
      rw [hcb] at h
      replace h : (if e.isSyntax then
          Except.error (JsError.err "LLM returned invalid JSON response")
          else Except.error e) = Except.ok r := h
      by_cases hs : e.isSyntax <;> simp [hs] at h
    | ok r2 =>
      rw [hcb] at h
      replace h : Except.ok r2 = Except.ok r := h
      simp only [Except.ok.injEq] at h
      subst h
      by_cases hok : responseOk resp = true
      · rw [callBody_ok hok] at hcb
        cases hjson : jsonParse resp.body with
        | error e =>
          rw [hjson] at hcb
          exact absurd (show (Except.error e : Except JsError ScoreResult)
            = Except.ok r2 from hcb) (by simp)
        | ok respData =>
          rw [hjson] at hcb
          replace hcb : (match parseResponse cfg respData with
            | Except.error e => Except.error e
            | Except.ok result => validateResult result) = Except.ok r2 := hcb
          cases hpr : parseResponse cfg respData with
          | error e =>
            rw [hpr] at hcb
            exact absurd (show (Except.error e : Except JsError ScoreResult)
              = Except.ok r2 from hcb) (by simp)
          | ok payload =>
            rw [hpr] at hcb
            replace hcb : validateResult payload = Except.ok r2 := hcb
            unfold parseResponse at hpr
            cases hex : extractTextPayload cfg respData with
            | error e =>
              rw [hex] at hpr
              exact absurd (show (Except.error e : Except JsError Json)
                = Except.ok payload from hpr) (by simp)
            | ok t =>
              rw [hex] at hpr
              replace hpr : jsonParseJs t = Except.ok payload := hpr
              obtain ⟨h1, h2⟩ := validateResult_ok_shape hcb
              exact ⟨cfg, respData, t, payload, rfl, hok, rfl, hex, hpr, h1, h2⟩
      · rw [callBody_http_fail (Bool.not_eq_true _ ▸ hok)] at hcb
        exact absurd (show (Except.error (JsError.err ("API request failed ("
          ++ toString resp.status ++ "): " ++ resp.body)) : Except JsError ScoreResult)
          = Except.ok r2 from hcb) (by simp)

set_option maxRecDepth 100000 in
/-- Witness for C5 on a concrete successful call. -/
theorem c5_success_shape_witness :
    ∃ cfg respData t payload,
      apiConfigLookup "openai" = some cfg ∧ responseOk ⟨200, bodyOkPayload⟩ = true
      ∧ jsonParse (HttpResponse.mk 200 bodyOkPayload).body = Except.ok respData
      ∧ extractTextPayload cfg respData = Except.ok t
      ∧ jsonParseJs t = Except.ok payload
      ∧ payload.getProp "totalScore" = some (Json.num (ScoreResult.mk 5 "ok").totalScore)
      ∧ payload.getProp "reasoning" = some (Json.str (ScoreResult.mk 5 "ok").reasoning) :=
  c5_success_shape "openai" "gpt-4o" "sk-test" ⟨"Jane Doe Founder", true⟩
    ⟨200, bodyOkPayload⟩ ⟨5, "ok"⟩ rfl

set_option maxRecDepth 100000 in
/-- Counterexample for C5 as stated: a decoded payload whose `reasoning`
is the empty string is accepted, so a successful result need not carry
non-empty reasoning. -/
theorem c5_empty_reasoning_counterexample :
    callLLMAPI "openai" "gpt-4o" "sk-test" ⟨"Jane Doe Founder", true⟩ ⟨200, bodyEmptyReasoning⟩
      = Except.ok ⟨5, ""⟩
    ∧ (ScoreResult.mk 5 "").reasoning = "" :=
  ⟨rfl, rfl⟩

/-! ## Claim C1: at-most-once submission per identity -/

/-- `subIdCount` distributes over appended traces. -/
theorem subIdCount_append (cards : List CardElem) (id : String)
    (a b : List Submission) :
    subIdCount cards id (a ++ b) = subIdCount cards id a + subIdCount cards id b := by
  simp [subIdCount, List.filter_append]

/-- The processed set only grows across one filtered card-processing
step. -/
theorem processCardIfNew_mono (cards : List CardElem) (i : Nat) (s : SysState)
    (id : String) (h : id ∈ s.processed) :
    id ∈ (processCardIfNew cards i s).1.processed := by
  by_cases hsp : shouldProcess cards i s = true
  · cases hc : cards[i]? with
    | none => simpa [processCardIfNew, hsp, processCardSync, hc] using h
    | some c =>
      simp only [processCardIfNew, hsp, if_true, processCardSync, hc]
      split
      · exact List.mem_cons_of_mem _ h
      · exact List.mem_cons_of_mem _ h
  · simpa [processCardIfNew, hsp] using h

/-- One filtered card-processing step emits no submission, or exactly one
submission whose identity was not yet processed and is processed
afterwards. -/
theorem processCardIfNew_new (cards : List CardElem) (i : Nat) (s : SysState) :
    (processCardIfNew cards i s).2 = []
    ∨ ∃ c, cards[i]? = some c
        ∧ (processCardIfNew cards i s).2 = [⟨i, extractProfileData c⟩]
        ∧ getCardId c.text ∉ s.processed
        ∧ getCardId c.text ∈ (processCardIfNew cards i s).1.processed := by
  by_cases hsp : shouldProcess cards i s = true
  · cases hc : cards[i]? with
    | none => left; simp [processCardIfNew, hsp, processCardSync, hc]
    | some c =>
      have hnotmem : getCardId c.text ∉ s.processed := by
        intro hmem
        have hproc : isCardProcessed cards i s = true := by
          simp [isCardProcessed, hc, hmem]
        simp [shouldProcess, hc, hproc] at hsp
      by_cases hshort : ((extractProfileData c).text = ""
          ∨ (extractProfileData c).text.length < 10)
      · left
        simp [processCardIfNew, hsp, processCardSync, hc, hshort]
      · right
        refine ⟨c, rfl, ?_, hnotmem, ?_⟩
        · simp [processCardIfNew, hsp, processCardSync, hc, hshort]
        · simp [processCardIfNew, hsp, processCardSync, hc, hshort, updateBadgesAt]
  · left; simp [processCardIfNew, hsp]

/-- Trace invariant: every identity has been submitted at most once, and
a submitted identity is recorded in the processed set. -/
def AtMostOnce (cards : List CardElem) (s : SysState) (subs : List Submission) : Prop :=
  ∀ id, subIdCount cards id subs ≤ 1
    ∧ (1 ≤ subIdCount cards id subs → id ∈ s.processed)

/-- Counting a single submission resolves to a comparison of identities. -/
theorem subIdCount_single (cards : List CardElem) (id : String) (i : Nat)
    (pd : ProfileData) (c : CardElem) (hc : cards[i]? = some c) :
    subIdCount cards id [⟨i, pd⟩] = if getCardId c.text = id then 1 else 0 := by
  simp only [subIdCount, List.filter, subMatchesId, hc]
  split <;> rename_i hcond <;> simp_all

/-- One filtered card-processing step preserves the invariant. -/
theorem processCardIfNew_inv (cards : List CardElem) (i : Nat) (s : SysState)
    (subs : List Submission) (h : AtMostOnce cards s subs) :
    AtMostOnce cards (processCardIfNew cards i s).1
      (subs ++ (processCardIfNew cards i s).2) := by
  rcases processCardIfNew_new cards i s with hnil | ⟨c, hc, hsub, hnot, hmem⟩
  · intro id
    rw [hnil, List.append_nil]
    exact ⟨(h id).1, fun hcnt => processCardIfNew_mono cards i s id ((h id).2 hcnt)⟩
  · intro id
    rw [hsub, subIdCount_append, subIdCount_single cards id i _ c hc]
    by_cases hid : getCardId c.text = id
    · subst hid
      have h0 : subIdCount cards (getCardId c.text) subs = 0 := by
        by_contra hne
        exact hnot ((h _).2 (Nat.one_le_iff_ne_zero.mpr hne))
      rw [h0, if_pos rfl]
      exact ⟨le_refl 1, fun _ => hmem⟩
    · rw [if_neg hid, Nat.add_zero]
      exact ⟨(h id).1, fun hcnt => processCardIfNew_mono cards i s id ((h id).2 hcnt)⟩

/-- A whole scan batch preserves the invariant. -/
theorem processBatch_inv (cards : List CardElem) (is : List Nat) :
    ∀ (s : SysState) (subs : List Submission), AtMostOnce cards s subs →
    AtMostOnce cards (processBatch cards is s).1
      (subs ++ (processBatch cards is s).2) := by
  induction is with
  | nil => intro s subs h; simpa [processBatch] using h
  | cons i rest ih =>
    intro s subs h
    simp only [processBatch]
    rw [← List.append_assoc]
    exact ih _ _ (processCardIfNew_inv cards i s subs h)

/-- The response continuation never touches the processed set. -/
theorem respondStep_processed (i : Nat) (outcome : Outcome) (s : SysState) :
    (respondStep i outcome s).processed = s.processed := by
  unfold respondStep
  split
  · cases outcome with
    | resolved r => cases r <;> rfl
    | rejected m => rfl
  · rfl

/-- Any non-reload event preserves the invariant. -/
theorem step_inv_no_reload (cards : List CardElem) (e : Event)
    (hne : e ≠ Event.reload) (s : SysState) (subs : List Submission)
    (h : AtMostOnce cards s subs) :
    AtMostOnce cards (step cards s e).1 (subs ++ (step cards s e).2) := by
  cases e with
  | observe is => exact processBatch_inv cards is s subs h
  | respond i outcome =>
    intro id
    constructor
    · simpa [step] using (h id).1
    · intro hcnt
      have h1 : 1 ≤ subIdCount cards id subs := by simpa [step] using hcnt
      simpa [step, respondStep_processed] using (h id).2 h1
  | reload => exact absurd rfl hne

/-- A reload-free trace preserves the invariant. -/
theorem run_inv (cards : List CardElem) (events : List Event) :
    Event.reload ∉ events →
    ∀ (s : SysState) (subs : List Submission), AtMostOnce cards s subs →
    AtMostOnce cards (run cards s events).1 (subs ++ (run cards s events).2) := by
  induction events with
  | nil => intro _ s subs h; simpa [run] using h
  | cons e rest ih =>
    intro hnr s subs h
    have hne : e ≠ Event.reload := fun heq => hnr (heq ▸ List.mem_cons_self e rest)
    have hnr2 : Event.reload ∉ rest := fun hm => hnr (List.mem_cons_of_mem e hm)
    simp only [run]
    rw [← List.append_assoc]
    exact ih hnr2 _ _ (step_inv_no_reload cards e hne s subs h)

/-- Claim C1: the sync prefix of `processInvitationCard` records the
card's identity in the processed set in the same step in which the
scoring message is sent (before the asynchronous reply), and
consequently, on every reload-free trace from page load, every identity
is submitted for scoring at most once, whatever the interleaving of
observer firings and reply arrivals. -/
theorem c1_at_most_once :
    (∀ (cards : List CardElem) (i : Nat) (s : SysState) (sub : Submission),
      sub ∈ (processCardSync cards i s).2 →
      ∃ c, cards[i]? = some c
        ∧ getCardId c.text ∈ (processCardSync cards i s).1.processed)
    ∧ ∀ (cards : List CardElem) (events : List Event), Event.reload ∉ events →
      ∀ id, subIdCount cards id (run cards (initState cards) events).2 ≤ 1 := by
  constructor
  · intro cards i s sub hsub
    cases hc : cards[i]? with
    | none => simp [processCardSync, hc] at hsub
    | some c =>
      refine ⟨c, rfl, ?_⟩
      simp only [processCardSync, hc]
      split
      · exact List.mem_cons_self _ _
      · simp [updateBadgesAt]
  · intro cards events hnr id
    have hinit : AtMostOnce cards (initState cards) [] := by
      intro id0
      refine ⟨by simp [subIdCount], fun hcnt => ?_⟩
      simp [subIdCount] at hcnt
    have := run_inv cards events hnr (initState cards) [] hinit
    simpa using (this id).1

set_option maxRecDepth 400000 in
/-- Witness for C1: the same card observed in three observer firings
(twice in one batch, once later) is submitted exactly once, hence at
most once. -/
theorem c1_at_most_once_witness :
    Event.reload ∉ [Event.observe [0, 0], Event.observe [0]]
    ∧ subIdCount [cardJane] (getCardId cardJane.text)
        (run [cardJane] (initState [cardJane])
          [Event.observe [0, 0], Event.observe [0]]).2 ≤ 1 :=
  ⟨by decide,
   c1_at_most_once.2 [cardJane] [Event.observe [0, 0], Event.observe [0]]
     (by decide) (getCardId cardJane.text)⟩

/-! ## Claim C7: cards with short snapshot text stay untouched -/

/-- Invariant: card `i` bears no badge, has no in-flight message, and no
submission of the trace targets it. -/
def Untouched (i : Nat) (s : SysState) (subs : List Submission) : Prop :=
  badgesAt s i = [] ∧ i ∉ s.pending ∧ ∀ sub ∈ subs, sub.idx ≠ i

/-- The initial state has no badges anywhere. -/
theorem badgesAt_initState (cards : List CardElem) (i : Nat) :
    badgesAt (initState cards) i = [] := by
  unfold badgesAt initState
  cases h : (List.replicate cards.length ([] : List Badge))[i]? with
  | none => rfl
  | some bs =>
    have hmem : bs ∈ List.replicate cards.length ([] : List Badge) := by
      exact List.getElem?_mem h
    simp [List.eq_of_mem_replicate hmem]

/-- Updating another card's badges leaves card `i`'s badges alone. -/
theorem badgesAt_update_ne (s : SysState) (j i : Nat)
    (f : List Badge → List Badge) (hij : j ≠ i) :
    badgesAt (updateBadgesAt s j f) i = badgesAt s i := by
  simp [badgesAt, updateBadgesAt, List.getElem?_set_ne hij]

/-- Processing a card with a short cleaned snapshot leaves its badge
list, the pending set and the submission log unchanged. -/
theorem processCardIfNew_self_short (cards : List CardElem) (i : Nat)
    (s : SysState) (c : CardElem) (hc : cards[i]? = some c)
    (hshort : (extractProfileData c).text.length < 10) :
    (processCardIfNew cards i s).2 = []
    ∧ (processCardIfNew cards i s).1.badges = s.badges
    ∧ (processCardIfNew cards i s).1.pending = s.pending := by
  have hg : (extractProfileData c).text = "" ∨ (extractProfileData c).text.length < 10 :=
    Or.inr hshort
  by_cases hsp : shouldProcess cards i s = true
  · simp [processCardIfNew, hsp, processCardSync, hc, hg]
  · simp [processCardIfNew, hsp]

/-- Processing a different card does not change card `i`'s badges. -/
theorem processCardIfNew_badges_ne (cards : List CardElem) (j : Nat)
    (s : SysState) (i : Nat) (hij : j ≠ i) :
    badgesAt (processCardIfNew cards j s).1 i = badgesAt s i := by
  by_cases hsp : shouldProcess cards j s = true
  · cases hc : cards[j]? with
    | none => simp [processCardIfNew, hsp, processCardSync, hc]
    | some c =>
      simp only [processCardIfNew, hsp, if_true, processCardSync, hc]
      split
      · rfl
      · exact badgesAt_update_ne
          { s with processed := getCardId c.text :: s.processed } j i
          (fun bs => bs ++ [Badge.loading]) hij
  · simp [processCardIfNew, hsp]

/-- Processing a different card does not put card `i` in flight. -/
theorem processCardIfNew_pending_ne (cards : List CardElem) (j : Nat)
    (s : SysState) (i : Nat) (hij : j ≠ i) (hp : i ∉ s.pending) :
    i ∉ (processCardIfNew cards j s).1.pending := by
  by_cases hsp : shouldProcess cards j s = true
  · cases hc : cards[j]? with
    | none => simpa [processCardIfNew, hsp, processCardSync, hc] using hp
    | some c =>
      simp only [processCardIfNew, hsp, if_true, processCardSync, hc]
      split
      · exact hp
      · intro hmem
        rcases List.mem_cons.mp hmem with heq | hmem2
        · exact hij heq.symm
        · exact hp (by simpa [updateBadgesAt] using hmem2)
  · simpa [processCardIfNew, hsp] using hp

/-- Every submission a card step emits targets that card. -/
theorem processCardIfNew_subs_idx (cards : List CardElem) (j : Nat)
    (s : SysState) :
    ∀ sub ∈ (processCardIfNew cards j s).2, sub.idx = j := by
  intro sub hsub
  by_cases hsp : shouldProcess cards j s = true
  · cases hc : cards[j]? with
    | none => simp [processCardIfNew, hsp, processCardSync, hc] at hsub
    | some c =>
      simp only [processCardIfNew, hsp, if_true, processCardSync, hc] at hsub
      split at hsub
      · simp at hsub
      · simp at hsub
        rw [hsub]
  · simp [processCardIfNew, hsp] at hsub

/-- One card step preserves `Untouched` for a short-snapshot card. -/
theorem processCardIfNew_untouched (cards : List CardElem) (j i : Nat)
    (c : CardElem) (hc : cards[i]? = some c)
    (hshort : (extractProfileData c).text.length < 10)
    (s : SysState) (subs : List Submission) (h : Untouched i s subs) :
    Untouched i (processCardIfNew cards j s).1
      (subs ++ (processCardIfNew cards j s).2) := by
  obtain ⟨hb, hp, hs⟩ := h
  by_cases hij : j = i
  · subst hij
    obtain ⟨h1, h2, h3⟩ := processCardIfNew_self_short cards j s c hc hshort
    refine ⟨?_, ?_, ?_⟩
    · rw [show badgesAt (processCardIfNew cards j s).1 j
          = badgesAt s j by simp [badgesAt, h2]]
      exact hb
    · rw [h3]; exact hp
    · intro sub hsub
      rw [h1, List.append_nil] at hsub
      exact hs sub hsub
  · refine ⟨?_, ?_, ?_⟩
    · rw [processCardIfNew_badges_ne cards j s i hij]; exact hb
    · exact processCardIfNew_pending_ne cards j s i hij hp
    · intro sub hsub
      rcases List.mem_append.mp hsub with hsub | hsub
      · exact hs sub hsub
      · rw [processCardIfNew_subs_idx cards j s sub hsub]
        exact hij

/-- A whole scan batch preserves `Untouched` for a short-snapshot card. -/
theorem processBatch_untouched (cards : List CardElem) (is : List Nat)
    (i : Nat) (c : CardElem) (hc : cards[i]? = some c)
    (hshort : (extractProfileData c).text.length < 10) :
    ∀ (s : SysState) (subs : List Submission), Untouched i s subs →
    Untouched i (processBatch cards is s).1
      (subs ++ (processBatch cards is s).2) := by
  induction is with
  | nil => intro s subs h; simpa [processBatch] using h
  | cons j rest ih =>
    intro s subs h
    simp only [processBatch]
    rw [← List.append_assoc]
    exact ih _ _ (processCardIfNew_untouched cards j i c hc hshort s subs h)

/-- The response continuation preserves `Untouched`: a card that is not
in flight is never given a badge by a reply. -/
theorem respondStep_untouched (i0 : Nat) (outcome : Outcome) (i : Nat)
    (s : SysState) (subs : List Submission) (h : Untouched i s subs) :
    Untouched i (respondStep i0 outcome s) subs := by
  obtain ⟨hb, hp, hs⟩ := h
  by_cases hmem : i0 ∈ s.pending
  · by_cases hii : i0 = i
    · subst hii; exact absurd hmem hp
    · have hbadge : badgesAt (respondStep i0 outcome s) i = badgesAt s i := by
        unfold respondStep
        rw [if_pos hmem]
        cases outcome with
        | resolved r =>
          cases r with
          | success n rr =>
            exact badgesAt_update_ne { s with pending := s.pending.erase i0 } i0 i _ hii
          | failure e =>
            exact badgesAt_update_ne { s with pending := s.pending.erase i0 } i0 i _ hii
        | rejected m =>
          exact badgesAt_update_ne { s with pending := s.pending.erase i0 } i0 i _ hii
      have hpend : i ∉ (respondStep i0 outcome s).pending := by
        unfold respondStep
        rw [if_pos hmem]
        have herase : i ∉ s.pending.erase i0 :=
          fun hin => hp (List.mem_of_mem_erase hin)
        cases outcome with
        | resolved r =>
          cases r with
          | success n rr => simpa [updateBadgesAt] using herase
          | failure e => simpa [updateBadgesAt] using herase
        | rejected m => simpa [updateBadgesAt] using herase
      exact ⟨hbadge.trans hb, hpend, hs⟩
  · unfold respondStep
    rw [if_neg hmem]
    exact ⟨hb, hp, hs⟩

/-- Any event preserves `Untouched` for a short-snapshot card (the
reload re-scan included). -/
theorem step_untouched (cards : List CardElem) (e : Event) (i : Nat)
    (c : CardElem) (hc : cards[i]? = some c)
    (hshort : (extractProfileData c).text.length < 10)
    (s : SysState) (subs : List Submission) (h : Untouched i s subs) :
    Untouched i (step cards s e).1 (subs ++ (step cards s e).2) := by
  cases e with
  | observe is => exact processBatch_untouched cards is i c hc hshort s subs h
  | respond i0 outcome =>
    have := respondStep_untouched i0 outcome i s subs h
    simpa [step] using this
  | reload =>
    exact processBatch_untouched cards _ i c hc hshort _ subs
      ⟨h.1, h.2.1, h.2.2⟩

/-- A whole trace preserves `Untouched` for a short-snapshot card. -/
theorem run_untouched (cards : List CardElem) (events : List Event)
    (i : Nat) (c : CardElem) (hc : cards[i]? = some c)
    (hshort : (extractProfileData c).text.length < 10) :
    ∀ (s : SysState) (subs : List Submission), Untouched i s subs →
    Untouched i (run cards s events).1 (subs ++ (run cards s events).2) := by
  induction events with
  | nil => intro s subs h; simpa [run] using h
  | cons e rest ih =>
    intro s subs h
    simp only [run]
    rw [← List.append_assoc]
    exact ih _ _ (step_untouched cards e i c hc hshort s subs h)

/-- Claim C7: a card whose extracted snapshot text is shorter than 10
characters never receives a badge of any kind on any trace from page
load (in particular no error badge), and no scoring request is ever sent
for it. -/
theorem c7_short_text_silent (cards : List CardElem) (events : List Event)
    (i : Nat) (c : CardElem) (hc : cards[i]? = some c)
    (hshort : (extractProfileData c).text.length < 10) :
    badgesAt (run cards (initState cards) events).1 i = []
    ∧ ∀ sub ∈ (run cards (initState cards) events).2, sub.idx ≠ i := by
  have hinit : Untouched i (initState cards) [] :=
    ⟨badgesAt_initState cards i, by simp [initState], by simp⟩
  obtain ⟨hb, hp, hs⟩ :=
    run_untouched cards events i c hc hshort (initState cards) [] hinit
  exact ⟨hb, fun sub hsub => hs sub (by simpa using hsub)⟩

set_option maxRecDepth 400000 in
/-- Witness for C7: the card whose cleaned text is `aa bb` still has no
badge after being observed, reloaded and sent a stray reply. -/
theorem c7_short_text_silent_witness :
    [cardShortClean][0]? = some cardShortClean
    ∧ (extractProfileData cardShortClean).text.length < 10
    ∧ badgesAt (run [cardShortClean] (initState [cardShortClean])
        [Event.observe [0], Event.reload,
         Event.respond 0 (Outcome.resolved (Reply.success 1 "x"))]).1 0 = [] :=
  ⟨rfl, by decide,
   (c7_short_text_silent [cardShortClean]
     [Event.observe [0], Event.reload,
      Event.respond 0 (Outcome.resolved (Reply.success 1 "x"))]
     0 cardShortClean rfl (by decide)).1⟩

/-! ## Claim C6: the `extensionReloaded` reset -/

/-- The concrete trace refuting C6 as stated: score a card, receive the
reload message, then observe the card again. -/
def c6Trace : List Event :=
  [Event.observe [0],
   Event.respond 0 (Outcome.resolved (Reply.success 21 "Founder keyword")),
   Event.reload, Event.observe [0]]

set_option maxRecDepth 400000 in
/-- Counterexample for C6 as stated: after scoring `cardJane` the reload
message does clear the processed set (it ends empty), yet neither the
re-scan it triggers nor a later observer firing ever re-submits the
card — the submission log still holds exactly the one pre-reload
submission, because the rendered score badge makes
`isValidInvitationCard` and `isCardProcessed` reject the card. -/
theorem c6_reload_counterexample :
    (run [cardJane] (initState [cardJane]) c6Trace).2
      = [⟨0, extractProfileData cardJane⟩]
    ∧ badgesAt (run [cardJane] (initState [cardJane]) c6Trace).1 0
      = [Badge.score 21 "Founder keyword"]
    ∧ (run [cardJane] (initState [cardJane]) c6Trace).1.processed = [] :=
  ⟨rfl, rfl, rfl⟩

/-- A card already bearing a badge never passes the validity check. -/
theorem isValidInvitationCard_badge (c : CardElem) (badges : List Badge)
    (h : badges ≠ []) : isValidInvitationCard c badges = false := by
  have hbe : badges.isEmpty = false := by
    cases badges with
    | nil => exact absurd rfl h
    | cons b bs => rfl
  unfold isValidInvitationCard
  simp [hbe]

/-- Claim C6 (amended): `extensionReloaded` fully clears the
ProcessedSet and triggers a full re-scan, but a previously processed
card becomes eligible again only if it bears no badge: a badge-free card
is re-submitted even though its identity had been processed, while a
card still bearing a badge (in particular an already-scored one) is
skipped by the re-scan. -/
theorem c6_reload_amended (c : CardElem) (s : SysState)
    (hsel : c.matchesSelector = true)
    (hval : isValidInvitationCard c [] = true)
    (hlen : 10 ≤ (extractProfileData c).text.length)
    (hprev : getCardId c.text ∈ s.processed) :
    (badgesAt s 0 = [] →
      (step [c] s Event.reload).2 = [⟨0, extractProfileData c⟩]
      ∧ (step [c] s Event.reload).1.processed = [getCardId c.text])
    ∧ (badgesAt s 0 ≠ [] →
      (step [c] s Event.reload).2 = []) := by
  have hne : ¬((extractProfileData c).text = ""
      ∨ (extractProfileData c).text.length < 10) := by
    rintro (h0 | hlt)
    · rw [h0] at hlen; exact absurd hlen (by decide)
    · omega
  constructor
  · intro hb0
    have hb0' : badgesAt { s with processed := ([] : List String) } 0 = [] := hb0
    have hsp : shouldProcess [c] 0 { s with processed := [] } = true := by
      simp [shouldProcess, isCardProcessed, hsel, hb0', hval]
    constructor
    · simp [step, reloadStep, show List.range 1 = [0] from rfl,
        processBatch, processCardIfNew, hsp, processCardSync, hne]
    · simp [step, reloadStep, show List.range 1 = [0] from rfl,
        processBatch, processCardIfNew, hsp, processCardSync, hne, updateBadgesAt]
  · intro hbne
    have hbne' : badgesAt { s with processed := ([] : List String) } 0 ≠ [] := hbne
    have hsp : shouldProcess [c] 0 { s with processed := [] } = false := by
      simp [shouldProcess, isValidInvitationCard_badge c _ hbne']
    simp [step, reloadStep, show List.range 1 = [0] from rfl,
      processBatch, processCardIfNew, hsp]

set_option maxRecDepth 400000 in
/-- Witness for C6 (amended): a previously processed, badge-free
`cardJane` is re-submitted by the reload re-scan, and the same card with
a score badge is not. -/
theorem c6_reload_amended_witness :
    (step [cardJane] ⟨[getCardId cardJane.text], [[]], []⟩ Event.reload).2
      = [⟨0, extractProfileData cardJane⟩]
    ∧ (step [cardJane] ⟨[getCardId cardJane.text], [[]], []⟩ Event.reload).1.processed
      = [getCardId cardJane.text]
    ∧ (step [cardJane]
        ⟨[getCardId cardJane.text], [[Badge.score 21 "Founder keyword"]], []⟩
        Event.reload).2 = [] :=
  ⟨((c6_reload_amended cardJane ⟨[getCardId cardJane.text], [[]], []⟩
      rfl (by decide) (by decide) (by decide)).1 (by decide)).1,
   ((c6_reload_amended cardJane ⟨[getCardId cardJane.text], [[]], []⟩
      rfl (by decide) (by decide) (by decide)).1 (by decide)).2,
   (c6_reload_amended cardJane
      ⟨[getCardId cardJane.text], [[Badge.score 21 "Founder keyword"]], []⟩
      rfl (by decide) (by decide) (by decide)).2 (by decide)⟩

/-! ## Claim C8: HTTP failure renders an error badge, no retry -/

/-- `String.append` acts as list append on the underlying data. -/
theorem strApp_data (a b : String) : (a ++ b).data = a.data ++ b.data := by
  cases a; cases b; rfl

/-- The reply the background script computes for a non-2xx transport
response under full configuration. -/
theorem handleScoreProfile_http_fail (settings : Settings) (pd : ProfileData)
    (resp : HttpResponse) (cfg : Provider)
    (hp : jsTruthyStr settings.modelProvider = true)
    (hm : jsTruthyStr settings.modelSelection = true)
    (hk : jsTruthyStr settings.apiKey = true)
    (hcfg : apiConfigLookup (settings.modelProvider.getD "") = some cfg)
    (hok : responseOk resp = false) :
    handleScoreProfile settings pd resp
      = Reply.failure
          ("API request failed (" ++ toString resp.status ++ "): " ++ resp.body) := by
  have hmsg : ("API request failed (" ++ toString resp.status ++ "): " ++ resp.body) ≠ "" := by
    intro h0
    have h1 := congrArg String.data h0
    simp only [strApp_data] at h1
    rcases List.append_eq_nil.mp h1 with ⟨h2, _⟩
    rcases List.append_eq_nil.mp h2 with ⟨h3, _⟩
    rcases List.append_eq_nil.mp h3 with ⟨h4, _⟩
    exact absurd (congrArg List.length h4) (by decide)
  simp [handleScoreProfile, hp, hm, hk, callLLMAPI_lookup_some hcfg,
    callBody_http_fail hok, JsError.isSyntax, JsError.message, jsOrDefault, hmsg]

/-- Claim C8: when the provider replies with a non-2xx status, the
watcher ends up with exactly one error badge on the card whose attached
message contains the HTTP status code, and the card's identity stays in
the processed set (so a later observer firing cannot resubmit it). -/
theorem c8_http_error_badge (c : CardElem) (settings : Settings)
    (resp : HttpResponse) (cfg : Provider)
    (hsel : c.matchesSelector = true)
    (hval : isValidInvitationCard c [] = true)
    (hlen : 10 ≤ (extractProfileData c).text.length)
    (hp : jsTruthyStr settings.modelProvider = true)
    (hm : jsTruthyStr settings.modelSelection = true)
    (hk : jsTruthyStr settings.apiKey = true)
    (hcfg : apiConfigLookup (settings.modelProvider.getD "") = some cfg)
    (hok : responseOk resp = false) :
    ∃ msg,
      handleScoreProfile settings (extractProfileData c) resp = Reply.failure msg
      ∧ (∃ pre post, msg = pre ++ toString resp.status ++ post)
      ∧ badgesAt (run [c] (initState [c])
          [Event.observe [0], Event.respond 0 (Outcome.resolved
            (handleScoreProfile settings (extractProfileData c) resp))]).1 0
        = [Badge.error msg]
      ∧ getCardId c.text
        ∈ (run [c] (initState [c])
          [Event.observe [0], Event.respond 0 (Outcome.resolved
            (handleScoreProfile settings (extractProfileData c) resp))]).1.processed := by
  have hreply := handleScoreProfile_http_fail settings (extractProfileData c) resp cfg
    hp hm hk hcfg hok
  have hne : ¬((extractProfileData c).text = ""
      ∨ (extractProfileData c).text.length < 10) := by
    rintro (h0 | hlt)
    · rw [h0] at hlen; exact absurd hlen (by decide)
    · omega
  have hb0 : badgesAt (⟨[], [[]], []⟩ : SysState) 0 = ([] : List Badge) := rfl
  have hproc : isCardProcessed [c] 0 (⟨[], [[]], []⟩ : SysState) = false := by
    simp [isCardProcessed, badgesAt]
  have hsp : shouldProcess [c] 0 (⟨[], [[]], []⟩ : SysState) = true := by
    simp [shouldProcess, hsel, hproc, hb0, hval]
  have hstep1 : step [c] (initState [c]) (Event.observe [0])
      = (⟨[getCardId c.text], [[Badge.loading]], [0]⟩,
         [⟨0, extractProfileData c⟩]) := by
    rw [show initState [c] = (⟨[], [[]], []⟩ : SysState) from rfl]
    simp [step, processBatch, processCardIfNew, hsp, processCardSync, hne,
      updateBadgesAt, badgesAt]
  have hstep2 : step [c] (⟨[getCardId c.text], [[Badge.loading]], [0]⟩ : SysState)
      (Event.respond 0 (Outcome.resolved (Reply.failure
        ("API request failed (" ++ toString resp.status ++ "): " ++ resp.body))))
      = (⟨[getCardId c.text], [[Badge.error
          ("API request failed (" ++ toString resp.status ++ "): " ++ resp.body)]], []⟩,
         []) := by
    simp [step, respondStep, updateBadgesAt, badgesAt, removeFirstLoading, List.erase]
  refine ⟨"API request failed (" ++ toString resp.status ++ "): " ++ resp.body,
    hreply,
    ⟨"API request failed (", "): " ++ resp.body, String.append_assoc _ _ _⟩,
    ?_, ?_⟩
  · rw [hreply]
    simp [run, hstep1, hstep2, badgesAt]
  · rw [hreply]
    simp [run, hstep1, hstep2]

set_option maxRecDepth 400000 in
/-- Witness for C8: `cardJane`, full settings, HTTP 401. -/
theorem c8_http_error_badge_witness :
    ∃ msg,
      handleScoreProfile settingsFull (extractProfileData cardJane)
          ⟨401, "Unauthorized"⟩ = Reply.failure msg
      ∧ (∃ pre post, msg = pre ++ toString (HttpResponse.mk 401 "Unauthorized").status ++ post)
      ∧ badgesAt (run [cardJane] (initState [cardJane])
          [Event.observe [0], Event.respond 0 (Outcome.resolved
            (handleScoreProfile settingsFull (extractProfileData cardJane)
              ⟨401, "Unauthorized"⟩))]).1 0
        = [Badge.error msg]
      ∧ getCardId cardJane.text
        ∈ (run [cardJane] (initState [cardJane])
          [Event.observe [0], Event.respond 0 (Outcome.resolved
            (handleScoreProfile settingsFull (extractProfileData cardJane)
              ⟨401, "Unauthorized"⟩))]).1.processed :=
  c8_http_error_badge cardJane settingsFull ⟨401, "Unauthorized"⟩ Provider.openai
    rfl (by decide) (by decide) rfl rfl rfl rfl rfl

/-! ## Claim C9: the snapshot is the normalised text, sent verbatim -/

/-- A nonempty list is not `isEmpty`. -/
theorem isEmpty_false_of_ne_nil {l : List Char} (h : l ≠ []) :
    l.isEmpty = false := by
  cases l with
  | nil => exact absurd rfl h
  | cons a as => rfl

/-- A space is whitespace. -/
theorem jsWs_space : jsWs ' ' = true := rfl

/-- Dropping leading whitespace erases the run flag's effect. -/
theorem dropWhile_collapseWsAux_flag (cs : List Char) :
    (collapseWsAux true cs).dropWhile jsWs
      = (collapseWsAux false cs).dropWhile jsWs := by
  cases cs with
  | nil => rfl
  | cons c cs2 =>
    by_cases hws : jsWs c
    · rw [show collapseWsAux true (c :: cs2) = collapseWsAux true cs2 by
          simp [collapseWsAux, hws],
        show collapseWsAux false (c :: cs2) = ' ' :: collapseWsAux true cs2 by
          simp [collapseWsAux, hws],
        List.dropWhile_cons, if_pos jsWs_space]
    · rw [show collapseWsAux true (c :: cs2) = c :: collapseWsAux false cs2 by
          simp [collapseWsAux, hws],
        show collapseWsAux false (c :: cs2) = c :: collapseWsAux false cs2 by
          simp [collapseWsAux, hws]]

/-- Whitespace collapsing commutes with dropping leading whitespace. -/
theorem dropWhile_collapseWs (l : List Char) :
    (collapseWsL l).dropWhile jsWs = collapseWsL (l.dropWhile jsWs) := by
  induction l with
  | nil => rfl
  | cons c cs ih =>
    by_cases hws : jsWs c
    · rw [show collapseWsL (c :: cs) = ' ' :: collapseWsAux true cs by
          simp [collapseWsL, collapseWsAux, hws],
        show (c :: cs).dropWhile jsWs = cs.dropWhile jsWs by
          simp [List.dropWhile_cons, hws],
        List.dropWhile_cons, if_pos jsWs_space]
      rw [dropWhile_collapseWsAux_flag]
      exact ih
    · rw [show collapseWsL (c :: cs) = c :: collapseWsAux false cs by
          simp [collapseWsL, collapseWsAux, hws],
        show (c :: cs).dropWhile jsWs = c :: cs by
          simp [List.dropWhile_cons, hws],
        List.dropWhile_cons, if_neg (by simp [hws])]
      rw [show collapseWsL (c :: cs) = c :: collapseWsAux false cs by
        simp [collapseWsL, collapseWsAux, hws]]

/-- Collapsing an all-whitespace list inside a run yields nothing. -/
theorem collapseWsAux_true_eq_nil (cs : List Char)
    (h : collapseWsAux true cs = []) : ∀ c ∈ cs, jsWs c = true := by
  induction cs with
  | nil => intro c hc; cases hc
  | cons c cs2 ih =>
    by_cases hws : jsWs c
    · intro x hx
      rcases List.mem_cons.mp hx with rfl | hx2
      · exact hws
      · exact ih (by simpa [collapseWsAux, hws] using h) x hx2
    · exfalso
      rw [show collapseWsAux true (c :: cs2) = c :: collapseWsAux false cs2 by
        simp [collapseWsAux, hws]] at h
      cases h

/-- Collapsing outside a run never erases a nonempty list. -/
theorem collapseWsAux_false_ne_nil (c : Char) (cs : List Char) :
    collapseWsAux false (c :: cs) ≠ [] := by
  by_cases hws : jsWs c <;> simp [collapseWsAux, hws]

/-- A trimmed-end list consisting of whitespace is empty. -/
theorem dropTrailingWs_all_ws (cs : List Char)
    (h : ∀ c ∈ dropTrailingWs cs, jsWs c = true) : dropTrailingWs cs = [] := by
  induction cs with
  | nil => rfl
  | cons c cs2 ih =>
    have hdefl : dropTrailingWs (c :: cs2)
        = if (dropTrailingWs cs2).isEmpty && jsWs c then []
          else c :: dropTrailingWs cs2 := rfl
    by_cases hcond : ((dropTrailingWs cs2).isEmpty && jsWs c) = true
    · rw [hdefl, if_pos hcond]
    · rw [hdefl, if_neg hcond] at h
      have hc : jsWs c = true := h c (List.mem_cons_self _ _)
      have hr : dropTrailingWs cs2 = [] :=
        ih (fun x hx => h x (List.mem_cons_of_mem _ hx))
      exact absurd (by simp [hr, hc] :
        ((dropTrailingWs cs2).isEmpty && jsWs c) = true) hcond

/-- Whitespace collapsing commutes with dropping trailing whitespace. -/
theorem dropTrailingWs_collapseWsAux (l : List Char) :
    ∀ b, dropTrailingWs (collapseWsAux b l)
      = collapseWsAux b (dropTrailingWs l) := by
  induction l with
  | nil => intro b; rfl
  | cons c cs ih =>
    intro b
    have hdefl : dropTrailingWs (c :: cs)
        = if (dropTrailingWs cs).isEmpty && jsWs c then []
          else c :: dropTrailingWs cs := rfl
    by_cases hws : jsWs c
    · cases b with
      | true =>
        rw [show collapseWsAux true (c :: cs) = collapseWsAux true cs by
            simp [collapseWsAux, hws],
          ih true, hdefl]
        by_cases hemp : dropTrailingWs cs = []
        · rw [if_pos (by simp [hemp, hws]), hemp]
        · rw [if_neg (by simp [isEmpty_false_of_ne_nil hemp])]
          simp [collapseWsAux, hws]
      | false =>
        rw [show collapseWsAux false (c :: cs) = ' ' :: collapseWsAux true cs by
            simp [collapseWsAux, hws]]
        have hdef2 : dropTrailingWs (' ' :: collapseWsAux true cs)
            = if (dropTrailingWs (collapseWsAux true cs)).isEmpty && jsWs ' '
              then [] else ' ' :: dropTrailingWs (collapseWsAux true cs) := rfl
        rw [hdef2, ih true, hdefl]
        by_cases hemp : dropTrailingWs cs = []
        · rw [hemp]
          simp [collapseWsAux, hws, jsWs_space]
        · have hne2 : collapseWsAux true (dropTrailingWs cs) ≠ [] := by
            intro h0
            exact hemp (dropTrailingWs_all_ws cs (collapseWsAux_true_eq_nil _ h0))
          rw [if_neg (by simp [isEmpty_false_of_ne_nil hne2]),
            if_neg (by simp [isEmpty_false_of_ne_nil hemp])]
          simp [collapseWsAux, hws]
    · rw [show collapseWsAux b (c :: cs) = c :: collapseWsAux false cs by
          cases b <;> simp [collapseWsAux, hws]]
      have hdef2 : dropTrailingWs (c :: collapseWsAux false cs)
          = if (dropTrailingWs (collapseWsAux false cs)).isEmpty && jsWs c
            then [] else c :: dropTrailingWs (collapseWsAux false cs) := rfl
      rw [hdef2, ih false, hdefl]
      by_cases hemp : dropTrailingWs cs = []
      · rw [hemp]
        cases b <;> simp [collapseWsAux, hws]
      · have hne2 : collapseWsAux false (dropTrailingWs cs) ≠ [] := by
          cases hdt : dropTrailingWs cs with
          | nil => exact absurd hdt hemp
          | cons x xs => exact collapseWsAux_false_ne_nil x xs
        rw [if_neg (by simp [isEmpty_false_of_ne_nil hne2]),
          if_neg (by simp [isEmpty_false_of_ne_nil hemp])]
        cases b <;> simp [collapseWsAux, hws]

/-- Specialisation to the flag-false entry point. -/
theorem dropTrailingWs_collapseWs (l : List Char) :
    dropTrailingWs (collapseWsL l) = collapseWsL (dropTrailingWs l) :=
  dropTrailingWs_collapseWsAux l false

/-- Trimming the end is idempotent. -/
theorem dropTrailingWs_idem (l : List Char) :
    dropTrailingWs (dropTrailingWs l) = dropTrailingWs l := by
  induction l with
  | nil => rfl
  | cons c cs ih =>
    have hdefl : dropTrailingWs (c :: cs)
        = if (dropTrailingWs cs).isEmpty && jsWs c then []
          else c :: dropTrailingWs cs := rfl
    by_cases hcond : ((dropTrailingWs cs).isEmpty && jsWs c) = true
    · rw [hdefl, if_pos hcond]; rfl
    · rw [hdefl, if_neg hcond]
      have hdef2 : dropTrailingWs (c :: dropTrailingWs cs)
          = if (dropTrailingWs (dropTrailingWs cs)).isEmpty && jsWs c
            then [] else c :: dropTrailingWs (dropTrailingWs cs) := rfl
      rw [hdef2, ih, if_neg hcond]

/-- The first retained character of a `dropWhile` fails the predicate. -/
theorem dropWhile_head_not (p : Char → Bool) (l : List Char) (c : Char)
    (cs : List Char) (h : l.dropWhile p = c :: cs) : p c = false := by
  induction l with
  | nil => cases h
  | cons a as ih =>
    rw [List.dropWhile_cons] at h
    split at h
    · exact ih h
    · rename_i hpa
      injection h with h1 _
      subst h1
      simpa using hpa

/-- Trimming the end preserves the head of a list. -/
theorem dropTrailingWs_head (c : Char) (cs : List Char) :
    dropTrailingWs (c :: cs) = []
    ∨ ∃ r, dropTrailingWs (c :: cs) = c :: r := by
  have hdefl : dropTrailingWs (c :: cs)
      = if (dropTrailingWs cs).isEmpty && jsWs c then []
        else c :: dropTrailingWs cs := rfl
  by_cases hcond : ((dropTrailingWs cs).isEmpty && jsWs c) = true
  · left; rw [hdefl, if_pos hcond]
  · right; exact ⟨dropTrailingWs cs, by rw [hdefl, if_neg hcond]⟩

/-- A fully trimmed list has no leading whitespace left. -/
theorem trimmed_dropWhile (l : List Char) :
    (jsTrimL l).dropWhile jsWs = jsTrimL l := by
  show (dropTrailingWs (l.dropWhile jsWs)).dropWhile jsWs
      = dropTrailingWs (l.dropWhile jsWs)
  cases hdw : l.dropWhile jsWs with
  | nil => rfl
  | cons c cs =>
    have hc : jsWs c = false := dropWhile_head_not jsWs l c cs hdw
    rcases dropTrailingWs_head c cs with h0 | ⟨r, hr⟩
    · rw [h0]; rfl
    · rw [hr, List.dropWhile_cons]
      simp [hc]

/-- Trimming before collapsing changes nothing once the result is
trimmed again. -/
theorem jsTrimL_collapseWs_trim (l : List Char) :
    jsTrimL (collapseWsL (jsTrimL l)) = jsTrimL (collapseWsL l) := by
  show dropTrailingWs ((collapseWsL (jsTrimL l)).dropWhile jsWs)
      = dropTrailingWs ((collapseWsL l).dropWhile jsWs)
  rw [dropWhile_collapseWs (jsTrimL l), trimmed_dropWhile l,
    dropWhile_collapseWs l]
  show dropTrailingWs (collapseWsL (dropTrailingWs (l.dropWhile jsWs)))
      = dropTrailingWs (collapseWsL (l.dropWhile jsWs))
  rw [← dropTrailingWs_collapseWs (l.dropWhile jsWs)]
  exact dropTrailingWs_idem _

/-- Whitespace collapsing emits no newline (a newline is whitespace, so
every emitted character is either a space or non-whitespace). -/
theorem collapseWsAux_no_nl (b : Bool) (l : List Char) :
    ∀ x ∈ collapseWsAux b l, x ≠ '\n' := by
  induction l generalizing b with
  | nil => intro x hx; cases hx
  | cons c cs ih =>
    intro x hx
    by_cases hws : jsWs c
    · cases b with
      | true =>
        rw [show collapseWsAux true (c :: cs) = collapseWsAux true cs by
          simp [collapseWsAux, hws]] at hx
        exact ih true x hx
      | false =>
        rw [show collapseWsAux false (c :: cs) = ' ' :: collapseWsAux true cs by
          simp [collapseWsAux, hws]] at hx
        rcases List.mem_cons.mp hx with rfl | hx2
        · decide
        · exact ih true x hx2
    · rw [show collapseWsAux b (c :: cs) = c :: collapseWsAux false cs by
        cases b <;> simp [collapseWsAux, hws]] at hx
      rcases List.mem_cons.mp hx with rfl | hx2
      · intro h0
        exact absurd (h0 ▸ hws) (by decide)
      · exact ih false x hx2

/-- Newline collapsing is the identity on newline-free lists. -/
theorem collapseNlAux_no_nl_id (b : Bool) (l : List Char)
    (h : ∀ x ∈ l, x ≠ '\n') : collapseNlAux b l = l := by
  induction l generalizing b with
  | nil => rfl
  | cons c cs ih =>
    have hc : c ≠ '\n' := h c (List.mem_cons_self _ _)
    rw [show collapseNlAux b (c :: cs) = c :: collapseNlAux false cs by
      cases b <;> simp [collapseNlAux, hc]]
    rw [ih false (fun x hx => h x (List.mem_cons_of_mem _ hx))]

/-- The spec's own wording of the snapshot text (§3): the raw text with
whitespace runs collapsed, newline runs collapsed, and the ends trimmed.
Stated from the spec's words to compare with the source's `cleanText`
(which trims before collapsing as well). -/
def specNormalizedText (raw : String) : String :=
  ⟨jsTrimL (collapseNlAux false (collapseWsL raw.data))⟩

/-- The source's normalisation coincides with the spec's wording. -/
theorem cleanText_eq_spec (raw : String) :
    cleanText raw = specNormalizedText raw := by
  unfold cleanText specNormalizedText
  rw [collapseNlAux_no_nl_id false (collapseWsL (jsTrimL raw.data))
      (collapseWsAux_no_nl false (jsTrimL raw.data)),
    collapseNlAux_no_nl_id false (collapseWsL raw.data)
      (collapseWsAux_no_nl false raw.data),
    jsTrimL_collapseWs_trim]

/-- Every submission a card step emits carries that card's snapshot
verbatim. -/
theorem processCardIfNew_payload (cards : List CardElem) (j : Nat)
    (s : SysState) :
    ∀ sub ∈ (processCardIfNew cards j s).2,
      ∃ c, cards[sub.idx]? = some c ∧ sub.payload = extractProfileData c := by
  intro sub hsub
  by_cases hsp : shouldProcess cards j s = true
  · cases hc : cards[j]? with
    | none => simp [processCardIfNew, hsp, processCardSync, hc] at hsub
    | some c =>
      simp only [processCardIfNew, hsp, if_true, processCardSync, hc] at hsub
      split at hsub
      · simp at hsub
      · simp at hsub
        subst hsub
        exact ⟨c, hc, rfl⟩
  · simp [processCardIfNew, hsp] at hsub

/-- Batch version of the verbatim-payload property. -/
theorem processBatch_payload (cards : List CardElem) (is : List Nat) :
    ∀ (s : SysState), ∀ sub ∈ (processBatch cards is s).2,
      ∃ c, cards[sub.idx]? = some c ∧ sub.payload = extractProfileData c := by
  induction is with
  | nil => intro s sub hsub; simp [processBatch] at hsub
  | cons j rest ih =>
    intro s sub hsub
    simp only [processBatch] at hsub
    rcases List.mem_append.mp hsub with h1 | h2
    · exact processCardIfNew_payload cards j s sub h1
    · exact ih _ sub h2

/-- Trace version of the verbatim-payload property. -/
theorem run_payload (cards : List CardElem) (events : List Event) :
    ∀ (s : SysState), ∀ sub ∈ (run cards s events).2,
      ∃ c, cards[sub.idx]? = some c ∧ sub.payload = extractProfileData c := by
  induction events with
  | nil => intro s sub hsub; simp [run] at hsub
  | cons e rest ih =>
    intro s sub hsub
    simp only [run] at hsub
    rcases List.mem_append.mp hsub with h1 | h2
    · cases e with
      | observe is => exact processBatch_payload cards is s sub h1
      | respond i outcome => simp [step] at h1
      | reload =>
        exact processBatch_payload cards (List.range cards.length)
          { s with processed := [] } sub h1
    · exact ih _ sub h2

/-- Claim C9: the snapshot text extracted from a card equals the card's
raw text with whitespace collapsed, newlines collapsed and the ends
trimmed (the spec's wording), together with the profile-picture flag;
every submission of every trace carries the snapshot of its card
verbatim; and any two submissions for the same card carry the identical
snapshot (built once per card). -/
theorem c9_snapshot_verbatim :
    (∀ card : CardElem,
      (extractProfileData card).text = specNormalizedText card.text
      ∧ (extractProfileData card).hasProfilePic = hasProfilePicOf card)
    ∧ (∀ (cards : List CardElem) (events : List Event),
      ∀ sub ∈ (run cards (initState cards) events).2,
      ∃ c, cards[sub.idx]? = some c ∧ sub.payload = extractProfileData c)
    ∧ (∀ (cards : List CardElem) (events : List Event),
      ∀ sub ∈ (run cards (initState cards) events).2,
      ∀ sub2 ∈ (run cards (initState cards) events).2,
      sub.idx = sub2.idx → sub.payload = sub2.payload) := by
  refine ⟨?_, ?_, ?_⟩
  · intro card
    exact ⟨cleanText_eq_spec card.text, rfl⟩
  · intro cards events sub hsub
    exact run_payload cards events _ sub hsub
  · intro cards events sub hsub sub2 hsub2 hidx
    obtain ⟨c, hc, hpay⟩ := run_payload cards events _ sub hsub
    obtain ⟨c2, hc2, hpay2⟩ := run_payload cards events _ sub2 hsub2
    rw [hidx] at hc
    rw [hc] at hc2
    rw [hpay, hpay2, Option.some.inj hc2]

set_option maxRecDepth 400000 in
/-- Witness for C9: `cardJane`'s snapshot text matches the spec-worded
normalisation, a concrete trace contains its verbatim submission, and
the same-card payload equality instantiates on it. -/
theorem c9_snapshot_verbatim_witness :
    (extractProfileData cardJane).text = specNormalizedText cardJane.text
    ∧ (Submission.mk 0 (extractProfileData cardJane)
        ∈ (run [cardJane] (initState [cardJane]) [Event.observe [0]]).2)
    ∧ (Submission.mk 0 (extractProfileData cardJane)).payload
      = (Submission.mk 0 (extractProfileData cardJane)).payload :=
  ⟨(c9_snapshot_verbatim.1 cardJane).1,
   by decide,
   c9_snapshot_verbatim.2.2 [cardJane] [Event.observe [0]]
     ⟨0, extractProfileData cardJane⟩ (by decide)
     ⟨0, extractProfileData cardJane⟩ (by decide) rfl⟩

end LeadScorer
